import Mathlib

/-!
Shallow embedding of the request-validation, response-construction and
output-formatting pipeline of a serverless oEmbed provider, together with
theorems settling the specification claims about it.

The JavaScript source is embedded as executable Lean definitions:
optional / missing JavaScript values become `Option`, JavaScript truthiness
is made explicit (`jsTruthyS`, `jsTruthyI`), machine numbers in the relevant
ranges are modelled as `Int`, and code that throws returns `Except`.
Platform builtins used by the source (`parseInt`, `decodeURIComponent`,
`new URL`) are modelled by small executable functions documented at their
definitions.
-/

namespace Oembed

/-- Truthiness of an optional JavaScript string value:
`undefined`/`null` (here `none`) and the empty string are falsy. -/
def jsTruthyS : Option String → Bool
  | none => false
  | some s => !(s == "")

/-- Truthiness of an optional JavaScript number value:
`undefined`/`null` (here `none`) and `0` are falsy. -/
def jsTruthyI : Option Int → Bool
  | none => false
  | some n => !(n == 0)

/-- The JavaScript idiom `v || d` on an optional string `v` with default `d`. -/
def jsOrS (v : Option String) (d : String) : String :=
  if jsTruthyS v then v.getD d else d

/-- Whitespace skipped by JavaScript `parseInt` before reading digits. -/
def isJsSpace (c : Char) : Bool :=
  c == ' ' || c == '\t' || c == '\n' || c == '\r'

/-- Model of the JavaScript builtin `parseInt(s, 10)`: skip leading
whitespace, read an optional sign and then the longest prefix of decimal
digits; the result is `none` (JavaScript `NaN`) when no digit is found, and
otherwise the integer denoted by that digit prefix - any trailing
non-digit characters are ignored. -/
def parseIntJs (s : String) : Option Int :=
  let cs := s.toList.dropWhile isJsSpace
  let signAndRest : Bool × List Char :=
    match cs with
    | '-' :: rest => (true, rest)
    | '+' :: rest => (false, rest)
    | _ => (false, cs)
  let digits := signAndRest.2.takeWhile Char.isDigit
  if digits.isEmpty then none
  else
    let n : Nat := digits.foldl (fun acc c => 10 * acc + (c.toNat - 48)) 0
    some (if signAndRest.1 then -(n : Int) else (n : Int))

/-- ASCII lowering of one character (model of the case normalization the
URL builtin applies to scheme and host; both are ASCII in this pipeline). -/
def charLowerAscii (c : Char) : Char :=
  if 'A' ≤ c && c ≤ 'Z' then Char.ofNat (c.toNat + 32) else c

/-- ASCII string lowering. -/
def strToLower (s : String) : String :=
  String.mk (s.toList.map charLowerAscii)

/-- Model of JavaScript `String.prototype.endsWith`: suffix test. -/
def strEndsWith (s suffix : String) : Bool :=
  let sl := s.toList
  let tl := suffix.toList
  if tl.length ≤ sl.length then sl.drop (sl.length - tl.length) == tl else false

/-- Whether `s` begins with the given text (used to state properties of
generated bodies). -/
def strStartsWith (s t : String) : Bool :=
  s.toList.take t.toList.length == t.toList

/-- Model of `String.prototype.replace` with a global single-character
pattern, as used by every escaping helper in the source: each occurrence of
the character is replaced by the replacement string in one pass. -/
def replaceChar (s : String) (c : Char) (r : String) : String :=
  String.mk (s.toList.foldr (fun ch acc => if ch == c then r.toList ++ acc else ch :: acc) [])

/-! ## Constants (src/utils/constants.mjs) -/

/-- Embeds `OEMBED.FORMATS` from src/utils/constants.mjs. -/
def VALID_FORMATS : List String := ["json", "xml"]

/-- Embeds `OEMBED.DEFAULT_FORMAT`. -/
def DEFAULT_FORMAT : String := "json"

/-- Embeds `OEMBED.DEFAULT_CACHE_AGE` (one hour), used by the base response template. -/
def DEFAULT_CACHE_AGE : Int := 3600

/-- Embeds `OEMBED.MIN_DIMENSION`. -/
def MIN_DIMENSION : Int := 1

/-- Embeds `OEMBED.MAX_WIDTH_LIMIT`. -/
def MAX_WIDTH_LIMIT : Int := 2048

/-- Embeds `OEMBED.MAX_HEIGHT_LIMIT`. -/
def MAX_HEIGHT_LIMIT : Int := 2048

/-- Embeds `SECURITY.MAX_URL_LENGTH`. -/
def MAX_URL_LENGTH : Nat := 2048

/-- Embeds `SECURITY.IFRAME_SANDBOX_ATTRIBUTES`. -/
def IFRAME_SANDBOX_ATTRIBUTES : String :=
  "allow-scripts allow-same-origin allow-presentation"

/-- Embeds `SECURITY.IFRAME_ALLOW_ATTRIBUTES`. -/
def IFRAME_ALLOW_ATTRIBUTES : String :=
  "accelerometer; autoplay; clipboard-write; encrypted-media; gyroscope; picture-in-picture"

/-- Embeds `ERROR_MESSAGES` lookup table from src/utils/constants.mjs. -/
def ERROR_MESSAGES (code : String) : String :=
  if code == "MISSING_URL" then "URL parameter is required"
  else if code == "INVALID_URL" then "Invalid URL format"
  else if code == "MALFORMED_URL" then "Invalid URL"
  else if code == "UNAUTHORIZED_DOMAIN" then "Provider Domain Not Found"
  else if code == "INVALID_FORMAT" then "Format not implemented"
  else if code == "INVALID_MAXWIDTH" then "Maxwidth must be a number between 1 and 2048"
  else if code == "INVALID_MAXHEIGHT" then "Maxheight must be a number between 1 and 2048"
  else if code == "CONTENT_NOT_FOUND" then "Content not found"
  else if code == "BACKEND_ERROR" then "Backend service error"
  else if code == "MISSING_PROVIDER_DOMAIN" then "Provider domain not configured"
  else if code == "MISSING_REQUIRED_FIELD" then "Required field missing for content type"
  else if code == "INTERNAL_ERROR" then "Internal server error"
  else ""

/-! ## Parameter validation (src/core/validator.mjs, src/utils/security.mjs) -/

/-- Raw query parameters handed to the handler; every field is an optional
string exactly as it arrives from the transport layer. -/
structure QueryParams where
  url : Option String
  format : Option String
  maxwidth : Option String
  maxheight : Option String
deriving Repr, DecidableEq

/-- A validation error object `{field, message, code}` as built by
`createValidationError` in src/core/validator.mjs. -/
structure ValidationError where
  field : String
  message : String
  code : String
deriving Repr, DecidableEq

/-- Embeds `createValidationError` from src/core/validator.mjs. -/
def createValidationError (field message code : String) : ValidationError :=
  { field := field, message := message, code := code }

/-- Result record of `validateNumeric` in src/utils/security.mjs. -/
structure NumericValidation where
  isValid : Bool
  value : Option Int
  error : Option String
deriving Repr, DecidableEq

/-- Embeds `validateNumeric` from src/utils/security.mjs: `parseInt(value, 10)`,
reject `NaN`, then reject values outside `[min, max]`. -/
def validateNumeric (value : String) (min max : Int) : NumericValidation :=
  match parseIntJs value with
  | none => { isValid := false, value := none, error := some "Value must be a number" }
  | some num =>
    if num < min || num > max then
      { isValid := false, value := none
        error := some ("Value must be between " ++ toString min ++ " and " ++ toString max) }
    else { isValid := true, value := some num, error := none }

/-- Embeds `validateDimension` from src/core/validator.mjs. -/
def validateDimension (value fieldName errorCode : String) : Option ValidationError :=
  let maxLimit := if fieldName == "maxwidth" then MAX_WIDTH_LIMIT else MAX_HEIGHT_LIMIT
  let validation := validateNumeric value MIN_DIMENSION maxLimit
  if !validation.isValid then
    some (createValidationError fieldName (ERROR_MESSAGES errorCode) errorCode)
  else none

/-- Result record of `validateOembedParams`. -/
structure ValidationResult where
  isValid : Bool
  errors : List ValidationError
  format : String
deriving Repr, DecidableEq

/-- Embeds `validateOembedParams` from src/core/validator.mjs: errors are pushed in
source order (url, then format, then maxwidth, then maxheight); the format
defaults to json via the `params.format || OEMBED.DEFAULT_FORMAT` idiom. -/
def validateOembedParams (params : QueryParams) : ValidationResult :=
  let errors₁ : List ValidationError :=
    if !jsTruthyS params.url then
      [createValidationError "url" (ERROR_MESSAGES "MISSING_URL") "MISSING_URL"]
    else []
  let format := jsOrS params.format DEFAULT_FORMAT
  let errors₂ :=
    if !(VALID_FORMATS.contains format) then
      errors₁ ++ [createValidationError "format" (ERROR_MESSAGES "INVALID_FORMAT") "INVALID_FORMAT"]
    else errors₁
  let errors₃ :=
    match params.maxwidth with
    | none => errors₂
    | some v =>
      match validateDimension v "maxwidth" "INVALID_MAXWIDTH" with
      | some e => errors₂ ++ [e]
      | none => errors₂
  let errors₄ :=
    match params.maxheight with
    | none => errors₃
    | some v =>
      match validateDimension v "maxheight" "INVALID_MAXHEIGHT" with
      | some e => errors₃ ++ [e]
      | none => errors₃
  { isValid := errors₄.isEmpty, errors := errors₄, format := format }

/-! ## URL model

The source relies on the platform builtin `new URL(...)`. The builtin is
modelled here by an executable parser covering the behaviour the claims
depend on: scheme extraction and validation, authority/hostname splitting
with userinfo and port handling (including default-port elision) for the
special schemes http/https, path/query/fragment splitting with the `/`
default path, and case normalization of scheme and host. Unicode host
mapping, percent-encoding normalization and path dot-segment removal are
out of the model's scope; no claim depends on them. -/

/-- Components of a parsed URL, mirroring the fields of the JavaScript `URL`
object that the source reads (`protocol` keeps its trailing colon). -/
structure UrlObj where
  protocol : String
  hostname : String
  host : String
  pathname : String
  search : String
  hash : String
  special : Bool
deriving Repr, DecidableEq

/-- Splits a URL string at its scheme: returns the lowercased scheme and the
remainder after the colon, or `none` when no syntactically valid scheme is
present (in which case `new URL` throws). -/
def parseSchemeSplit (s : String) : Option (String × String) :=
  let cs := s.toList
  let pre := cs.takeWhile (fun c => !(c == ':'))
  if pre.length == cs.length then none
  else
    match pre with
    | [] => none
    | c :: rest =>
      if c.isAlpha && rest.all (fun d => d.isAlphanum || d == '+' || d == '-' || d == '.') then
        some (strToLower (String.mk pre), String.mk (cs.drop (pre.length + 1)))
      else none

/-- Splits the part of a URL after the authority into pathname, search
(with its leading question mark) and fragment (with its leading hash). -/
def splitPathSearchHash (cs : List Char) : List Char × List Char × List Char :=
  let beforeHash := cs.takeWhile (fun c => !(c == '#'))
  let hashPart := cs.drop beforeHash.length
  let path := beforeHash.takeWhile (fun c => !(c == '?'))
  let searchPart := beforeHash.drop path.length
  (path, searchPart, hashPart)

/-- Model of the JavaScript builtin `new URL(s)`, returning `none` where the
builtin throws. -/
def parseUrlJs (s : String) : Option UrlObj :=
  match parseSchemeSplit s with
  | none => none
  | some (scheme, rest) =>
    let protocol := scheme ++ ":"
    if scheme == "http" || scheme == "https" then
      let restCs := rest.toList.dropWhile (fun c => c == '/' || c == '\\')
      let authority := restCs.takeWhile (fun c => !(c == '/' || c == '?' || c == '#'))
      let afterAuth := restCs.drop authority.length
      let hostPort := (authority.reverse.takeWhile (fun c => !(c == '@'))).reverse
      let hostname := hostPort.takeWhile (fun c => !(c == ':'))
      let portStr := (hostPort.drop hostname.length).drop 1
      if hostname.isEmpty then none
      else if !(portStr.all Char.isDigit) then none
      else
        let hostnameStr := strToLower (String.mk hostname)
        let isDefaultPort :=
          portStr.isEmpty ||
          (scheme == "http" && String.mk portStr == "80") ||
          (scheme == "https" && String.mk portStr == "443")
        let hostStr := if isDefaultPort then hostnameStr
          else hostnameStr ++ ":" ++ String.mk portStr
        let parts := splitPathSearchHash afterAuth
        some { protocol := protocol, hostname := hostnameStr, host := hostStr,
               pathname := if parts.1.isEmpty then "/" else String.mk parts.1,
               search := String.mk parts.2.1, hash := String.mk parts.2.2,
               special := true }
    else
      let parts := splitPathSearchHash rest.toList
      some { protocol := protocol, hostname := "", host := "",
             pathname := String.mk parts.1, search := String.mk parts.2.1,
             hash := String.mk parts.2.2, special := false }

/-- Model of `URL.prototype.toString` (serialization of the parsed URL). -/
def urlToString (u : UrlObj) : String :=
  if u.special then u.protocol ++ "//" ++ u.host ++ u.pathname ++ u.search ++ u.hash
  else u.protocol ++ u.pathname ++ u.search ++ u.hash

/-! ## Security utilities (src/utils/security.mjs) -/

/-- Result record of `validateAndSanitizeUrl` in src/utils/security.mjs. -/
structure UrlValidation where
  isValid : Bool
  error : Option String
  sanitizedUrl : Option String
  protocol : Option String
  hostname : Option String
  pathname : Option String
deriving Repr, DecidableEq

/-- Failure result of `validateAndSanitizeUrl` carrying only an error text. -/
def urlValidationFail (e : String) : UrlValidation :=
  { isValid := false, error := some e, sanitizedUrl := none,
    protocol := none, hostname := none, pathname := none }

/-- Embeds `SECURITY.ALLOWED_PROTOCOLS`. -/
def ALLOWED_PROTOCOLS : List String := ["http:", "https:"]

/-- Embeds `validateAndSanitizeUrl` from src/utils/security.mjs: reject non-strings
and empty strings, overlong URLs, unparseable URLs and non-http(s) schemes;
on success rebuild the URL from its parsed components. A `none` argument
models a non-string (`undefined`) input. -/
def validateAndSanitizeUrl (url : Option String) : UrlValidation :=
  match url with
  | none => urlValidationFail "URL must be a non-empty string"
  | some u =>
    if u.length == 0 then urlValidationFail "URL must be a non-empty string"
    else if u.length > MAX_URL_LENGTH then urlValidationFail "URL exceeds maximum length"
    else
      match parseUrlJs u with
      | none => urlValidationFail "Invalid URL format"
      | some urlObj =>
        if !(ALLOWED_PROTOCOLS.contains urlObj.protocol) then
          urlValidationFail "Only HTTP and HTTPS protocols are allowed"
        else
          { isValid := true, error := none,
            sanitizedUrl := some (urlObj.protocol ++ "//" ++ urlObj.host ++ urlObj.pathname
              ++ urlObj.search ++ urlObj.hash),
            protocol := some urlObj.protocol, hostname := some urlObj.hostname,
            pathname := some urlObj.pathname }

/-! ## URL authorization (src/core/validator.mjs) -/

/-- Process-wide provider configuration read from the environment; each
variable may be unset (`none`). -/
structure Env where
  providerName : Option String
  providerUrl : Option String
  providerDomain : Option String
deriving Repr, DecidableEq

/-- Result record of `validateAndAuthorizeUrl` in src/core/validator.mjs. -/
structure AuthResult where
  isValid : Bool
  error : Option String
  code : Option String
  details : Option String
  urlObj : Option UrlObj
  hostname : Option String
  pathname : Option String
deriving Repr, DecidableEq

/-- Embeds `validateAndAuthorizeUrl` from src/core/validator.mjs: URL format
validation, then provider-domain configuration check, then suffix-match
domain authorization via `hostname.endsWith(providerDomain)`. -/
def validateAndAuthorizeUrl (env : Env) (url : Option String) : AuthResult :=
  let urlValidation := validateAndSanitizeUrl url
  if !urlValidation.isValid then
    { isValid := false, error := some (ERROR_MESSAGES "MALFORMED_URL"),
      code := some "MALFORMED_URL", details := urlValidation.error,
      urlObj := none, hostname := none, pathname := none }
  else if !jsTruthyS env.providerDomain then
    { isValid := false, error := some (ERROR_MESSAGES "MISSING_PROVIDER_DOMAIN"),
      code := some "MISSING_PROVIDER_DOMAIN", details := none,
      urlObj := none, hostname := none, pathname := none }
  else
    let hostname := urlValidation.hostname.getD ""
    let providerDomain := env.providerDomain.getD ""
    if !(strEndsWith hostname providerDomain) then
      { isValid := false, error := some (ERROR_MESSAGES "UNAUTHORIZED_DOMAIN"),
        code := some "UNAUTHORIZED_DOMAIN",
        details := some ("URL hostname " ++ hostname ++ " does not match provider domain "
          ++ providerDomain),
        urlObj := none, hostname := none, pathname := none }
    else
      { isValid := true, error := none, code := none, details := none,
        urlObj := parseUrlJs (urlValidation.sanitizedUrl.getD ""),
        hostname := urlValidation.hostname, pathname := urlValidation.pathname }

/-! ## Parameter sanitization (src/core/validator.mjs) -/

/-- Numeric value of a hexadecimal digit character. -/
def hexVal (c : Char) : Option Nat :=
  if '0' ≤ c && c ≤ '9' then some (c.toNat - 48)
  else if 'a' ≤ c && c ≤ 'f' then some (c.toNat - 87)
  else if 'A' ≤ c && c ≤ 'F' then some (c.toNat - 55)
  else none

/-- Character-list worker for `decodeURIComponentJs`. -/
def decodeURIComponentAux : List Char → Option (List Char)
  | [] => some []
  | '%' :: h1 :: h2 :: rest =>
    match hexVal h1, hexVal h2 with
    | some a, some b => (decodeURIComponentAux rest).map (fun t => Char.ofNat (16 * a + b) :: t)
    | _, _ => none
  | '%' :: _ => none
  | c :: rest => (decodeURIComponentAux rest).map (fun t => c :: t)

/-- Model of the JavaScript builtin `decodeURIComponent`: each `%hh` escape
with two hexadecimal digits is replaced by the character with that code, and
a malformed escape makes the builtin throw (`none` here). Multi-byte UTF-8
sequence validation is outside the model's scope; no claim depends on it. -/
def decodeURIComponentJs (s : String) : Option String :=
  (decodeURIComponentAux s.toList).map String.mk

/-- Embeds `safeParseInteger` from src/core/validator.mjs: decode then `parseInt`;
if decoding throws, `parseInt` the raw value; `NaN` becomes null (`none`). -/
def safeParseInteger (value : String) : Option Int :=
  match decodeURIComponentJs value with
  | some decoded => parseIntJs decoded
  | none => parseIntJs value

/-- Sanitized parameter set produced by `sanitizeParams`. In the source the
dimension fields are absent when the raw parameter is absent and null when
parsing fails; every consumer in src treats absent and null identically
(JavaScript falsiness), so both are `none` here. -/
structure SanitizedParams where
  url : Option String
  format : String
  maxwidth : Option Int
  maxheight : Option Int
deriving Repr, DecidableEq

/-- Embeds `sanitizeParams` from src/core/validator.mjs. -/
def sanitizeParams (params : QueryParams) : SanitizedParams :=
  let url :=
    if jsTruthyS params.url then
      some (match decodeURIComponentJs (params.url.getD "") with
            | some d => d
            | none => params.url.getD "")
    else none
  { url := url,
    format := jsOrS params.format DEFAULT_FORMAT,
    maxwidth := params.maxwidth.bind safeParseInteger,
    maxheight := params.maxheight.bind safeParseInteger }

/-- The JavaScript idiom `v || d` on an optional number `v` with default `d`
(so a null, undefined or zero value falls back to the default). -/
def jsOrI (v : Option Int) (d : Int) : Int :=
  if jsTruthyI v then v.getD 0 else d

/-! ## Content metadata (backend collaborator data, read by the core) -/

/-- Tri-state JavaScript number slot: the source distinguishes an absent
`cache_age` (`!== undefined` guard) from an explicit null, so this one
metadata field keeps all three states. -/
inductive JsOptInt
  | undef
  | null
  | val (n : Int)
deriving Repr, DecidableEq

/-- Content metadata as produced by the backend collaborator; field names
follow the source, including the alias fields (`author`, `authorUrl`,
`thumbnail`). -/
structure Metadata where
  type : Option String
  title : Option String
  author_name : Option String
  author : Option String
  author_url : Option String
  authorUrl : Option String
  width : Option Int
  height : Option Int
  url : Option String
  html : Option String
  embedUrl : Option String
  content : Option String
  thumbnail_url : Option String
  thumbnail : Option String
  thumbnail_width : Option Int
  thumbnail_height : Option Int
  cache_age : JsOptInt
deriving Repr, DecidableEq

/-- Metadata object with every field absent, for building concrete inputs. -/
def emptyMetadata : Metadata :=
  { type := none, title := none, author_name := none, author := none,
    author_url := none, authorUrl := none, width := none, height := none,
    url := none, html := none, embedUrl := none, content := none,
    thumbnail_url := none, thumbnail := none, thumbnail_width := none,
    thumbnail_height := none, cache_age := JsOptInt.undef }

/-! ## HTML generator (src/oembed/html-generator.mjs) -/

/-- Embeds `ERROR_MESSAGES.VIDEO_NOT_AVAILABLE` from src/oembed/html-generator.mjs. -/
def VIDEO_NOT_AVAILABLE : String :=
  "<div class=\"video-error\">Video content not available</div>"

/-- Embeds `sanitizeUrl` from src/oembed/html-generator.mjs: parse the URL, accept
only http/https, and return the canonical serialization; any failure yields
the empty string. -/
def sanitizeUrl (url : String) : String :=
  if url == "" then ""
  else
    match parseUrlJs url with
    | none => ""
    | some urlObj =>
      if !(["http:", "https:"].contains urlObj.protocol) then ""
      else urlToString urlObj

/-- Embeds `sanitizeHtmlContent` from src/oembed/html-generator.mjs: sequential
escaping of ampersand first, then angle brackets, quotes and slash. -/
def sanitizeHtmlContent (content : String) : String :=
  if content == "" then ""
  else
    replaceChar (replaceChar (replaceChar (replaceChar (replaceChar (replaceChar
      content '&' "&amp;") '<' "&lt;") '>' "&gt;") '\"' "&quot;") '\x27' "&#x27;")
      '/' "&#x2F;"

/-- Embeds `generateVideoHtml` from src/oembed/html-generator.mjs. -/
def generateVideoHtml (metadata : Metadata) (width height : Option Int) : String :=
  let embedUrl :=
    if jsTruthyS metadata.embedUrl then metadata.embedUrl.getD ""
    else if jsTruthyS metadata.url then metadata.url.getD ""
    else ""
  let safeWidth := jsOrI width (jsOrI metadata.width 640)
  let safeHeight := jsOrI height (jsOrI metadata.height 360)
  if embedUrl == "" then VIDEO_NOT_AVAILABLE
  else
    let sanitizedUrl := sanitizeUrl embedUrl
    if sanitizedUrl == "" then VIDEO_NOT_AVAILABLE
    else
      "<iframe src=\"" ++ sanitizedUrl ++ "\" width=\"" ++ toString safeWidth
        ++ "\" height=\"" ++ toString safeHeight
        ++ "\" frameborder=\"0\" allowfullscreen allow=\"" ++ IFRAME_ALLOW_ATTRIBUTES
        ++ "\" sandbox=\"" ++ IFRAME_SANDBOX_ATTRIBUTES ++ "\"></iframe>"

/-- Embeds `generateRichHtml` from src/oembed/html-generator.mjs. -/
def generateRichHtml (metadata : Metadata) (width height : Option Int) : String :=
  let safeWidth := jsOrI width (jsOrI metadata.width 500)
  let safeHeight := jsOrI height (jsOrI metadata.height 300)
  if jsTruthyS metadata.html then metadata.html.getD ""
  else
    let content := if jsTruthyS metadata.content then metadata.content.getD "" else "Rich content"
    "<div class=\"rich-content\" style=\"width:" ++ toString safeWidth ++ "px;height:"
      ++ toString safeHeight
      ++ "px;border:1px solid #ddd;padding:10px;overflow:auto;\">"
      ++ sanitizeHtmlContent content ++ "</div>"

/-! ## Response builder (src/oembed/response-builder.mjs) -/

/-- A constructed oEmbed response object. The first five fields are always
present on the JavaScript object (in this insertion order); the remaining
fields are absent (`none`) until assigned. `cache_age` is special: the
object always carries the key, but its value is the JavaScript null
(`none` here) when the backend metadata carried an explicit null. -/
structure OembedResponse where
  version : String
  cache_age : Option Int
  type : String
  provider_name : String
  provider_url : String
  title : Option String
  author_name : Option String
  author_url : Option String
  thumbnail_url : Option String
  thumbnail_width : Option Int
  thumbnail_height : Option Int
  url : Option String
  html : Option String
  width : Option Int
  height : Option Int
deriving Repr, DecidableEq

/-- Embeds `buildBaseResponse` from src/oembed/response-builder.mjs: the
pre-compiled base template (`version`, `cache_age`) plus type and provider
information. -/
def buildBaseResponse (env : Env) (metadata : Metadata) : OembedResponse :=
  { version := "1.0",
    cache_age := some DEFAULT_CACHE_AGE,
    type := jsOrS metadata.type "rich",
    provider_name := jsOrS env.providerName "oEmbed Provider",
    provider_url := jsOrS env.providerUrl "https://example.com",
    title := none, author_name := none, author_url := none,
    thumbnail_url := none, thumbnail_width := none, thumbnail_height := none,
    url := none, html := none, width := none, height := none }

/-- Embeds `addOptionalFields` from src/oembed/response-builder.mjs: title, author
fields (with alias fallback) and the metadata cache-age override. -/
def addOptionalFields (response : OembedResponse) (metadata : Metadata) : OembedResponse :=
  let r₁ := if jsTruthyS metadata.title then { response with title := metadata.title } else response
  let authorName := if jsTruthyS metadata.author_name then metadata.author_name else metadata.author
  let r₂ := if jsTruthyS authorName then { r₁ with author_name := authorName } else r₁
  let authorUrl := if jsTruthyS metadata.author_url then metadata.author_url else metadata.authorUrl
  let r₃ := if jsTruthyS authorUrl then { r₂ with author_url := authorUrl } else r₂
  match metadata.cache_age with
  | JsOptInt.undef => r₃
  | JsOptInt.null => { r₃ with cache_age := none }
  | JsOptInt.val v => { r₃ with cache_age := some v }

/-- Embeds `addThumbnailFields` from src/oembed/response-builder.mjs: the
all-or-none thumbnail rule. -/
def addThumbnailFields (response : OembedResponse) (metadata : Metadata) : OembedResponse :=
  let thumbnailUrl :=
    if jsTruthyS metadata.thumbnail_url then metadata.thumbnail_url else metadata.thumbnail
  if jsTruthyS thumbnailUrl then
    let r₁ := { response with thumbnail_url := thumbnailUrl }
    let r₂ :=
      if jsTruthyI metadata.thumbnail_width then
        { r₁ with thumbnail_width := metadata.thumbnail_width }
      else r₁
    if jsTruthyI metadata.thumbnail_height then
      { r₂ with thumbnail_height := metadata.thumbnail_height }
    else r₂
  else response

/-- Embeds `calculateConstrainedDimension` from src/oembed/response-builder.mjs. -/
def calculateConstrainedDimension (originalDimension constraint : Option Int) : Option Int :=
  if !(jsTruthyI originalDimension) then
    if jsTruthyI constraint then constraint else none
  else if !(jsTruthyI constraint) then originalDimension
  else some (min (originalDimension.getD 0) (constraint.getD 0))

/-- Embeds `createPhotoResponse` from src/oembed/response-builder.mjs: throws when
the url field is missing, otherwise adds url and constrained dimensions
with the 800 by 600 photo defaults. -/
def createPhotoResponse (baseResponse : OembedResponse) (metadata : Metadata)
    (maxwidth maxheight : Option Int) : Except String OembedResponse :=
  if !(jsTruthyS metadata.url) then Except.error "Photo type requires url field"
  else
    let width := jsOrI (calculateConstrainedDimension metadata.width maxwidth) 800
    let height := jsOrI (calculateConstrainedDimension metadata.height maxheight) 600
    Except.ok { baseResponse with url := metadata.url, width := some width, height := some height }

/-- Embeds `createVideoResponse` from src/oembed/response-builder.mjs: throws when
both `embedUrl` and `html` are missing, otherwise adds html (generated when
not supplied) and constrained dimensions with the 640 by 360 defaults. -/
def createVideoResponse (baseResponse : OembedResponse) (metadata : Metadata)
    (maxwidth maxheight : Option Int) : Except String OembedResponse :=
  if !(jsTruthyS metadata.embedUrl) && !(jsTruthyS metadata.html) then
    Except.error "Video type requires embedUrl or html field"
  else
    let width := jsOrI (calculateConstrainedDimension metadata.width maxwidth) 640
    let height := jsOrI (calculateConstrainedDimension metadata.height maxheight) 360
    Except.ok { baseResponse with
      html := some (if jsTruthyS metadata.html then metadata.html.getD ""
        else generateVideoHtml metadata (some width) (some height)),
      width := some width, height := some height }

/-- Embeds `createLinkResponse` from src/oembed/response-builder.mjs: the base
response unchanged. -/
def createLinkResponse (baseResponse : OembedResponse) (_metadata : Metadata) : OembedResponse :=
  baseResponse

/-- Embeds `createRichResponse` from src/oembed/response-builder.mjs: forces the
rich type and adds html and constrained dimensions with the 500 by 300
defaults. -/
def createRichResponse (baseResponse : OembedResponse) (metadata : Metadata)
    (maxwidth maxheight : Option Int) : OembedResponse :=
  let width := jsOrI (calculateConstrainedDimension metadata.width maxwidth) 500
  let height := jsOrI (calculateConstrainedDimension metadata.height maxheight) 300
  { baseResponse with
    type := "rich",
    html := some (if jsTruthyS metadata.html then metadata.html.getD ""
      else generateRichHtml metadata (some width) (some height)),
    width := some width, height := some height }

/-- Embeds `createTypeSpecificResponse` from src/oembed/response-builder.mjs: base
response, optional fields, thumbnail rule, then the type dispatch (unknown
types are coerced to rich). -/
def createTypeSpecificResponse (env : Env) (metadata : Metadata)
    (maxwidth maxheight : Option Int) : Except String OembedResponse :=
  let base₁ := buildBaseResponse env metadata
  let base₂ := addOptionalFields base₁ metadata
  let baseResponse := addThumbnailFields base₂ metadata
  let contentType := jsOrS metadata.type "rich"
  if contentType == "photo" then createPhotoResponse baseResponse metadata maxwidth maxheight
  else if contentType == "video" then createVideoResponse baseResponse metadata maxwidth maxheight
  else if contentType == "link" then Except.ok (createLinkResponse baseResponse metadata)
  else if contentType == "rich" then
    Except.ok (createRichResponse baseResponse metadata maxwidth maxheight)
  else
    Except.ok (createRichResponse baseResponse { metadata with type := some "rich" }
      maxwidth maxheight)

/-! ## Output formatting (src/core/formatter.mjs, src/utils/helpers.mjs) -/

/-- Scalar JavaScript value stored in a response object field. `undefined`
fields are not stored at all, so the only states are string, number and
null. -/
inductive JsVal
  | s (v : String)
  | n (v : Int)
  | null
deriving Repr, DecidableEq

/-- Model of the JavaScript builtin `String(value)` on the scalar values. -/
def jsValToString : JsVal → String
  | JsVal.s v => v
  | JsVal.n v => toString v
  | JsVal.null => "null"

/-- String-content escaping performed by `JSON.stringify` (backslash, quote
and the common control characters; other control characters do not occur in
the data handled here). -/
def jsonEscapeString (s : String) : String :=
  replaceChar (replaceChar (replaceChar (replaceChar (replaceChar
    s '\\' "\\\\") '\"' "\\\"") '\n' "\\n") '\r' "\\r") '\t' "\\t"

/-- Serialization of one scalar value by `JSON.stringify`. -/
def jsonValSer : JsVal → String
  | JsVal.s v => "\"" ++ jsonEscapeString v ++ "\""
  | JsVal.n v => toString v
  | JsVal.null => "null"

/-- Model of `JSON.stringify` on a flat object given by its ordered entry
list: every entry is serialized, null values included. -/
def jsonStringify (data : List (String × JsVal)) : String :=
  "\x7b" ++ String.intercalate ","
    (data.map (fun kv => "\"" ++ kv.1 ++ "\":" ++ jsonValSer kv.2)) ++ "\x7d"

/-- Embeds `escapeXml` from src/utils/helpers.mjs: sequential replacement of
ampersand first, then angle brackets, double quote and apostrophe. -/
def escapeXml (s : String) : String :=
  if s == "" then ""
  else
    replaceChar (replaceChar (replaceChar (replaceChar (replaceChar
      s '&' "&amp;") '<' "&lt;") '>' "&gt;") '\"' "&quot;") '\x27' "&apos;"

/-- Helper building the entry list of a JavaScript object: an optional
string field contributes an entry exactly when it was assigned. -/
def optEntryS (k : String) (v : Option String) : List (String × JsVal) :=
  match v with
  | some s => [(k, JsVal.s s)]
  | none => []

/-- Helper building the entry list of a JavaScript object: an optional
number field contributes an entry exactly when it was assigned. -/
def optEntryI (k : String) (v : Option Int) : List (String × JsVal) :=
  match v with
  | some n => [(k, JsVal.n n)]
  | none => []

/-- Ordered entry list (`Object.entries`) of a constructed response object,
following the insertion order of the source: base template fields first,
then the optional fields in assignment order, then the type-specific
fields. A null `cache_age` is a present entry with a null value. -/
def responseEntries (r : OembedResponse) : List (String × JsVal) :=
  [("version", JsVal.s r.version),
   ("cache_age", match r.cache_age with | some v => JsVal.n v | none => JsVal.null),
   ("type", JsVal.s r.type),
   ("provider_name", JsVal.s r.provider_name),
   ("provider_url", JsVal.s r.provider_url)]
  ++ optEntryS "title" r.title
  ++ optEntryS "author_name" r.author_name
  ++ optEntryS "author_url" r.author_url
  ++ optEntryS "thumbnail_url" r.thumbnail_url
  ++ optEntryI "thumbnail_width" r.thumbnail_width
  ++ optEntryI "thumbnail_height" r.thumbnail_height
  ++ optEntryS "url" r.url
  ++ optEntryS "html" r.html
  ++ optEntryI "width" r.width
  ++ optEntryI "height" r.height

/-- The pre-compiled XML declaration from src/core/formatter.mjs. -/
def XML_DECLARATION : String :=
  "<?xml version=\"1.0\" encoding=\"utf-8\" standalone=\"yes\"?>"

/-- The element lines built inside `generateXmlBody`: entries with null (or
undefined, which is never stored) values are filtered out, the rest become
escaped flat elements. -/
def xmlElements (data : List (String × JsVal)) : List String :=
  (data.filter (fun kv => !(kv.2 == JsVal.null))).map
    (fun kv => "  <" ++ kv.1 ++ ">" ++ escapeXml (jsValToString kv.2) ++ "</" ++ kv.1 ++ ">")

/-- Embeds `generateXmlBody` from src/core/formatter.mjs. -/
def generateXmlBody (data : List (String × JsVal)) : String :=
  XML_DECLARATION ++ "\n<oembed>\n" ++ String.intercalate "\n" (xmlElements data)
    ++ "\n</oembed>"

/-- An HTTP response as assembled by the formatter: status code, the
headers the source sets (content type, optional cache control, the CORS
allow-origin header present on every response) and the body text. -/
structure HttpResponse where
  statusCode : Nat
  contentType : String
  cacheControl : Option String
  corsAllowOrigin : String
  body : String
deriving Repr, DecidableEq

/-- Embeds `CACHE_CONTROL.DEFAULT_MAX_AGE` from src/utils/constants.mjs. -/
def DEFAULT_MAX_AGE : Int := 3600

/-- Embeds `formatJsonResponse` from src/core/formatter.mjs. -/
def formatJsonResponse (data : OembedResponse) : HttpResponse :=
  let cacheAge := jsOrI data.cache_age DEFAULT_MAX_AGE
  { statusCode := 200, contentType := "application/json",
    cacheControl := some ("max-age=" ++ toString cacheAge),
    corsAllowOrigin := "*",
    body := jsonStringify (responseEntries data) }

/-- Embeds `formatXmlResponse` from src/core/formatter.mjs. -/
def formatXmlResponse (data : OembedResponse) : HttpResponse :=
  let cacheAge := jsOrI data.cache_age DEFAULT_MAX_AGE
  { statusCode := 200, contentType := "text/xml",
    cacheControl := some ("max-age=" ++ toString cacheAge),
    corsAllowOrigin := "*",
    body := generateXmlBody (responseEntries data) }

/-- Embeds `formatResponse` from src/core/formatter.mjs. -/
def formatResponse (data : OembedResponse) (format : String) : HttpResponse :=
  if format == "xml" then formatXmlResponse data else formatJsonResponse data

/-- Embeds `getErrorCodeFromStatus` from src/core/formatter.mjs. -/
def getErrorCodeFromStatus (statusCode : Nat) : String :=
  if statusCode == 400 then "BAD_REQUEST"
  else if statusCode == 401 then "UNAUTHORIZED"
  else if statusCode == 404 then "NOT_FOUND"
  else if statusCode == 501 then "NOT_IMPLEMENTED"
  else if statusCode == 500 then "INTERNAL_SERVER_ERROR"
  else "UNKNOWN_ERROR"

/-- The error payload built by `formatErrorResponse` (the `error` object of
the body). Timestamp and request id are generated fresh by the source; the
embedding takes them as arguments. -/
structure ErrorData where
  code : String
  message : String
  timestamp : String
  requestId : String
  details : Option String
deriving Repr, DecidableEq

/-- JSON body of an error response: the `error` object serialized by
`JSON.stringify`, with the optional details entry last. -/
def errorDataJson (e : ErrorData) : String :=
  "\x7b\"error\":\x7b\"code\":" ++ jsonValSer (JsVal.s e.code)
    ++ ",\"message\":" ++ jsonValSer (JsVal.s e.message)
    ++ ",\"timestamp\":" ++ jsonValSer (JsVal.s e.timestamp)
    ++ ",\"requestId\":" ++ jsonValSer (JsVal.s e.requestId)
    ++ (match e.details with
        | some d => ",\"details\":" ++ jsonValSer (JsVal.s d)
        | none => "")
    ++ "\x7d\x7d"

/-- Embeds `formatJsonErrorResponse` from src/core/formatter.mjs (error responses
carry no cache-control header). -/
def formatJsonErrorResponse (statusCode : Nat) (errorData : ErrorData) : HttpResponse :=
  { statusCode := statusCode, contentType := "application/json",
    cacheControl := none, corsAllowOrigin := "*",
    body := errorDataJson errorData }

/-- Embeds `formatXmlErrorResponse` from src/core/formatter.mjs, reproducing the
source's template string verbatim. -/
def formatXmlErrorResponse (statusCode : Nat) (errorData : ErrorData) : HttpResponse :=
  { statusCode := statusCode, contentType := "text/xml",
    cacheControl := none, corsAllowOrigin := "*",
    body := XML_DECLARATION ++ "\n<oembed>\n  <error>\n    <code>"
      ++ escapeXml errorData.code ++ "</code>\n    <message>"
      ++ escapeXml errorData.message ++ "</message>\n    <timestamp>"
      ++ escapeXml errorData.timestamp ++ "</timestamp>\n    <requestId>"
      ++ escapeXml errorData.requestId ++ "</requestId>\n    "
      ++ (match errorData.details with
          | some d => "<details>" ++ escapeXml d ++ "</details>"
          | none => "")
      ++ "\n  </error>\n</oembed>" }

/-- The `errorData.error` object assembled inside `formatErrorResponse`:
the code defaults from the HTTP status when no explicit code is supplied
(the `code || getErrorCodeFromStatus(statusCode)` idiom) and details are
attached only when provided (truthy). -/
def mkErrorData (statusCode : Nat) (message : String) (code details : Option String)
    (timestamp requestId : String) : ErrorData :=
  { code := jsOrS code (getErrorCodeFromStatus statusCode),
    message := message, timestamp := timestamp, requestId := requestId,
    details := if jsTruthyS details then details else none }

/-- Embeds `formatErrorResponse` from src/core/formatter.mjs: build the error
payload and dispatch on the format. -/
def formatErrorResponse (statusCode : Nat) (message format : String)
    (code details : Option String) (timestamp requestId : String) : HttpResponse :=
  let errorData := mkErrorData statusCode message code details timestamp requestId
  if format == "xml" then formatXmlErrorResponse statusCode errorData
  else formatJsonErrorResponse statusCode errorData

/-! ## Handler orchestration (handlers/oembed.mjs) -/

/-- Embeds `ERROR_STATUS_MAP` from handlers/oembed.mjs (pre-computed error code to
HTTP status mapping; codes outside the map fall back to 500 at use sites). -/
def ERROR_STATUS_MAP (code : String) : Option Nat :=
  if code == "MISSING_URL" then some 400
  else if code == "INVALID_URL" then some 400
  else if code == "MALFORMED_URL" then some 400
  else if code == "INVALID_FORMAT" then some 501
  else if code == "INVALID_MAXWIDTH" then some 400
  else if code == "INVALID_MAXHEIGHT" then some 400
  else if code == "UNAUTHORIZED_DOMAIN" then some 404
  else if code == "CONTENT_NOT_FOUND" then some 404
  else if code == "MISSING_PROVIDER_DOMAIN" then some 500
  else none

/-- The Lambda `handler` from handlers/oembed.mjs, with the impure
collaborators made explicit: the environment configuration, the backend
metadata fetch result (`Except.error` models a rejected fetch) and the
fresh timestamp and request id used for error bodies. Logging and tracing
calls are observability-only and are omitted. -/
def handler (env : Env) (queryParams : QueryParams) (backend : Except String Metadata)
    (timestamp requestId : String) : HttpResponse :=
  let sanitized := sanitizeParams queryParams
  let validation := validateOembedParams queryParams
  if !validation.isValid then
    let firstError := validation.errors.headD (createValidationError "" "" "")
    let statusCode := (ERROR_STATUS_MAP firstError.code).getD 500
    formatErrorResponse statusCode firstError.message validation.format
      (some firstError.code) none timestamp requestId
  else
    let urlValidation := validateAndAuthorizeUrl env sanitized.url
    if !urlValidation.isValid then
      let statusCode := (ERROR_STATUS_MAP (urlValidation.code.getD "")).getD 500
      formatErrorResponse statusCode (urlValidation.error.getD "") sanitized.format
        urlValidation.code urlValidation.details timestamp requestId
    else
      match backend with
      | Except.error _ =>
        formatErrorResponse 500 "Internal server error" (jsOrS queryParams.format "json")
          (some "INTERNAL_ERROR") none timestamp requestId
      | Except.ok metadata =>
        match createTypeSpecificResponse env metadata sanitized.maxwidth sanitized.maxheight with
        | Except.error _ =>
          formatErrorResponse 500 "Internal server error" (jsOrS queryParams.format "json")
            (some "INTERNAL_ERROR") none timestamp requestId
        | Except.ok oembedResponse => formatResponse oembedResponse sanitized.format

/-! ## Derived views used by the theorems -/

/-- The response after the three common phases of
`createTypeSpecificResponse` (base template, optional fields, thumbnail
rule), before the type dispatch. -/
def commonResponse (env : Env) (metadata : Metadata) : OembedResponse :=
  addThumbnailFields (addOptionalFields (buildBaseResponse env metadata) metadata) metadata

/-- The url segment of the error list pushed by `validateOembedParams`. -/
def urlErrorSegment (p : QueryParams) : List ValidationError :=
  if !jsTruthyS p.url then
    [createValidationError "url" (ERROR_MESSAGES "MISSING_URL") "MISSING_URL"]
  else []

/-- The format segment of the error list pushed by `validateOembedParams`. -/
def formatErrorSegment (p : QueryParams) : List ValidationError :=
  if !(VALID_FORMATS.contains (jsOrS p.format DEFAULT_FORMAT)) then
    [createValidationError "format" (ERROR_MESSAGES "INVALID_FORMAT") "INVALID_FORMAT"]
  else []

/-- The maxwidth segment of the error list pushed by `validateOembedParams`. -/
def maxwidthErrorSegment (p : QueryParams) : List ValidationError :=
  match p.maxwidth with
  | none => []
  | some v =>
    match validateDimension v "maxwidth" "INVALID_MAXWIDTH" with
    | some e => [e]
    | none => []

/-- The maxheight segment of the error list pushed by `validateOembedParams`. -/
def maxheightErrorSegment (p : QueryParams) : List ValidationError :=
  match p.maxheight with
  | none => []
  | some v =>
    match validateDimension v "maxheight" "INVALID_MAXHEIGHT" with
    | some e => [e]
    | none => []

/-- Field names serialized into the JSON body by `jsonStringify`: every
entry of the object, null-valued entries included. -/
def jsonSerializedFields (data : List (String × JsVal)) : List String :=
  data.map Prod.fst

/-- Element names of the children of the `oembed` root produced by
`xmlElements`/`generateXmlBody`: the entries surviving the null filter. -/
def xmlSerializedFields (data : List (String × JsVal)) : List String :=
  (data.filter (fun kv => !(kv.2 == JsVal.null))).map Prod.fst

/-- Whether a dimension parameter value passes `validateNumeric` with the
bounds used for maxwidth/maxheight: its `parseInt` integer prefix exists
and lies in [1, 2048]. -/
def dimensionOk (v : String) : Bool :=
  match parseIntJs v with
  | none => false
  | some n => !(n < 1 || n > 2048)

/-- Follows the spec's words for claim C2: a value that "is an integer" in
the usual sense, written as an optional sign followed by decimal digits
only. Used to exhibit values the spec calls non-integer. -/
def specIntegerString (s : String) : Bool :=
  let cs := match s.toList with
    | '-' :: rest => rest
    | '+' :: rest => rest
    | l => l
  !cs.isEmpty && cs.all Char.isDigit

/-- Embeds `DEFAULT_CACHE_AGES` from src/utils/constants.mjs: the type-specific
cache ages the specification quotes. The response builder never reads this
table. -/
def DEFAULT_CACHE_AGES (contentType : String) : Int :=
  if contentType == "photo" then 7200
  else if contentType == "video" then 3600
  else if contentType == "rich" then 1800
  else 3600

/-! ## Concrete fixtures for witnesses and counterexamples -/

/-- A concrete provider configuration. -/
def envFix : Env :=
  { providerName := some "My Business", providerUrl := some "https://mybusiness.com",
    providerDomain := some "mybusiness.com" }

/-- The parse result of the URL `ftp://a.com/x` under the URL model (a
non-special scheme keeps an opaque path). -/
def ftpUrlObjFix : UrlObj :=
  { protocol := "ftp:", hostname := "", host := "", pathname := "//a.com/x",
    search := "", hash := "", special := false }

/-- A provider configuration with no provider domain set. -/
def envNoDomainFix : Env :=
  { providerName := none, providerUrl := none, providerDomain := none }

/-- The video metadata of the specification's success scenario. -/
def mdVideoFix : Metadata :=
  { emptyMetadata with
    type := some "video",
    title := some "Test Video & Special Characters",
    embedUrl := some "https://mybusiness.com/embed/123",
    thumbnail_url := some "https://mybusiness.com/thumb/123.jpg",
    thumbnail_width := some 320, thumbnail_height := some 180 }

/-- Photo metadata carrying no cache age. -/
def mdPhotoFix : Metadata :=
  { emptyMetadata with type := some "photo", url := some "https://mybusiness.com/p.jpg" }

/-- Link metadata whose backend cache age is an explicit JavaScript null. -/
def mdLinkNullCacheFix : Metadata :=
  { emptyMetadata with type := some "link", cache_age := JsOptInt.null }

/-- Photo metadata with no url field (a backend data-integrity failure). -/
def mdPhotoNoUrlFix : Metadata :=
  { emptyMetadata with type := some "photo" }

/-- Video metadata with neither html nor embedUrl. -/
def mdVideoNoEmbedFix : Metadata :=
  { emptyMetadata with type := some "video", title := some "t" }

/-- The response built for `mdVideoFix` under an 800 by 600 constraint. -/
def videoRespFix : OembedResponse :=
  (createTypeSpecificResponse envFix mdVideoFix (some 800) (some 600)).toOption.getD
    (buildBaseResponse envFix emptyMetadata)

/-- The response built for `mdLinkNullCacheFix`. -/
def linkNullRespFix : OembedResponse :=
  (createTypeSpecificResponse envFix mdLinkNullCacheFix none none).toOption.getD
    (buildBaseResponse envFix emptyMetadata)

/-! # Helper lemmas -/

/-- The validity flag is exactly emptiness of the collected error list. -/
theorem validateOembedParams_isValid (p : QueryParams) :
    (validateOembedParams p).isValid = (validateOembedParams p).errors.isEmpty := rfl

/-- The format returned by validation is the defaulted format parameter. -/
theorem validateOembedParams_format (p : QueryParams) :
    (validateOembedParams p).format = jsOrS p.format DEFAULT_FORMAT := rfl

/-- The collected error list splits into the four per-parameter segments in
source push order. -/
theorem validateOembedParams_errors (p : QueryParams) :
    (validateOembedParams p).errors =
      urlErrorSegment p ++ formatErrorSegment p ++ maxwidthErrorSegment p
        ++ maxheightErrorSegment p := by
  unfold validateOembedParams urlErrorSegment formatErrorSegment maxwidthErrorSegment
    maxheightErrorSegment
  repeat' split
  all_goals simp_all [List.append_assoc]

/-- When validation collected at least one error, the handler answers with
the first error's mapped status and code. -/
theorem handler_first_error (env : Env) (p : QueryParams) (backend : Except String Metadata)
    (ts rid : String) (e : ValidationError) (rest : List ValidationError)
    (h : (validateOembedParams p).errors = e :: rest) :
    handler env p backend ts rid =
      formatErrorResponse ((ERROR_STATUS_MAP e.code).getD 500) e.message
        (jsOrS p.format DEFAULT_FORMAT) (some e.code) none ts rid := by
  have hv : (validateOembedParams p).isValid = false := by
    rw [validateOembedParams_isValid, h]; rfl
  simp only [handler, hv, h, validateOembedParams_format, Bool.not_false, if_true,
    List.headD_cons]

/-- A dimension error reported by `validateDimension` is the fixed error
object for its field and code. -/
theorem validateDimension_eq (v f c : String) (e : ValidationError)
    (h : validateDimension v f c = some e) :
    e = createValidationError f (ERROR_MESSAGES c) c := by
  simp only [validateDimension] at h
  split at h <;> split at h <;>
    first
      | exact (Option.some.inj h).symm
      | simp at h

/-- Fact: `validateDimension` accepts exactly the values whose `parseInt` prefix
lies in [1, 2048] (both field limits are 2048). -/
theorem validateDimension_none_iff (v f c : String) :
    validateDimension v f c = none ↔ dimensionOk v = true := by
  unfold validateDimension dimensionOk validateNumeric
  simp only [MAX_WIDTH_LIMIT, MAX_HEIGHT_LIMIT, ite_self, MIN_DIMENSION]
  cases parseIntJs v
  · simp
  · rename_i n
    by_cases hn : n < 1 ∨ n > 2048
    · simp [hn]; omega
    · simp [hn]; omega

/-- The url error segment only holds errors for the url field. -/
theorem not_mem_urlErrorSegment (p : QueryParams) (e : ValidationError)
    (h : e.field ≠ "url") : e ∉ urlErrorSegment p := by
  unfold urlErrorSegment
  split <;> simp [createValidationError]
  intro he
  exact h (by rw [he])

/-- The format error segment only holds errors for the format field. -/
theorem not_mem_formatErrorSegment (p : QueryParams) (e : ValidationError)
    (h : e.field ≠ "format") : e ∉ formatErrorSegment p := by
  unfold formatErrorSegment
  split <;> simp [createValidationError]
  intro he
  exact h (by rw [he])

/-- The maxwidth error segment only holds errors for the maxwidth field. -/
theorem not_mem_maxwidthErrorSegment (p : QueryParams) (e : ValidationError)
    (h : e.field ≠ "maxwidth") : e ∉ maxwidthErrorSegment p := by
  unfold maxwidthErrorSegment
  rcases p.maxwidth with _ | v
  · simp
  · rcases hv : validateDimension v "maxwidth" "INVALID_MAXWIDTH" with _ | x
    · simp [hv]
    · have hx := validateDimension_eq v "maxwidth" "INVALID_MAXWIDTH" x hv
      simp only [hv, List.mem_singleton]
      intro he
      exact h (by rw [he, hx]; rfl)

/-- The maxheight error segment only holds errors for the maxheight field. -/
theorem not_mem_maxheightErrorSegment (p : QueryParams) (e : ValidationError)
    (h : e.field ≠ "maxheight") : e ∉ maxheightErrorSegment p := by
  unfold maxheightErrorSegment
  rcases p.maxheight with _ | v
  · simp
  · rcases hv : validateDimension v "maxheight" "INVALID_MAXHEIGHT" with _ | x
    · simp [hv]
    · have hx := validateDimension_eq v "maxheight" "INVALID_MAXHEIGHT" x hv
      simp only [hv, List.mem_singleton]
      intro he
      exact h (by rw [he, hx]; rfl)

/-! # Claim C1 -/

/-- Claim C1 (amended): `validateOembedParams` collects parameter errors in
the fixed order url, format, maxwidth, maxheight (the list of collected
error codes is always a sublist of that sequence), and the handler acts on
the first error in the list with its mapped HTTP status: every request with
a falsy url parameter (absent or empty) gets status 400 with code
MISSING_URL regardless of the requested format, and every request with a
non-empty url and a non-empty format value outside json/xml gets status 501
with code INVALID_FORMAT. (The original claim fails only for the empty
format string, which the source's falsy default treats as an absent
format.) -/
theorem c1_claim :
    (∀ p : QueryParams,
      List.Sublist ((validateOembedParams p).errors.map ValidationError.code)
        ["MISSING_URL", "INVALID_FORMAT", "INVALID_MAXWIDTH", "INVALID_MAXHEIGHT"])
    ∧ (∀ (env : Env) (p : QueryParams) (backend : Except String Metadata) (ts rid : String),
        jsTruthyS p.url = false →
        handler env p backend ts rid =
          formatErrorResponse 400 (ERROR_MESSAGES "MISSING_URL")
            (jsOrS p.format DEFAULT_FORMAT) (some "MISSING_URL") none ts rid)
    ∧ (∀ (env : Env) (p : QueryParams) (backend : Except String Metadata) (ts rid f : String),
        jsTruthyS p.url = true → p.format = some f → (f == "") = false →
        VALID_FORMATS.contains f = false →
        handler env p backend ts rid =
          formatErrorResponse 501 (ERROR_MESSAGES "INVALID_FORMAT") f
            (some "INVALID_FORMAT") none ts rid) := by
  refine ⟨?_, ?_, ?_⟩
  · intro p
    rw [validateOembedParams_errors]
    have h1 : List.Sublist ((urlErrorSegment p).map ValidationError.code) ["MISSING_URL"] := by
      unfold urlErrorSegment
      split <;> simp [createValidationError]
    have h2 : List.Sublist ((formatErrorSegment p).map ValidationError.code)
        ["INVALID_FORMAT"] := by
      unfold formatErrorSegment
      split <;> simp [createValidationError]
    have h3 : List.Sublist ((maxwidthErrorSegment p).map ValidationError.code)
        ["INVALID_MAXWIDTH"] := by
      rcases hw : p.maxwidth with _ | v
      · simp [maxwidthErrorSegment, hw]
      · rcases hv : validateDimension v "maxwidth" "INVALID_MAXWIDTH" with _ | e
        · simp [maxwidthErrorSegment, hw, hv]
        · have he := validateDimension_eq v "maxwidth" "INVALID_MAXWIDTH" e hv
          simp [maxwidthErrorSegment, hw, hv, he, createValidationError]
    have h4 : List.Sublist ((maxheightErrorSegment p).map ValidationError.code)
        ["INVALID_MAXHEIGHT"] := by
      rcases hw : p.maxheight with _ | v
      · simp [maxheightErrorSegment, hw]
      · rcases hv : validateDimension v "maxheight" "INVALID_MAXHEIGHT" with _ | e
        · simp [maxheightErrorSegment, hw, hv]
        · have he := validateDimension_eq v "maxheight" "INVALID_MAXHEIGHT" e hv
          simp [maxheightErrorSegment, hw, hv, he, createValidationError]
    simpa [List.map_append] using h1.append (h2.append (h3.append h4))
  · intro env p backend ts rid h
    have hseg : urlErrorSegment p =
        [createValidationError "url" (ERROR_MESSAGES "MISSING_URL") "MISSING_URL"] := by
      unfold urlErrorSegment
      simp [h]
    have herr : (validateOembedParams p).errors =
        createValidationError "url" (ERROR_MESSAGES "MISSING_URL") "MISSING_URL" ::
          (formatErrorSegment p ++ maxwidthErrorSegment p ++ maxheightErrorSegment p) := by
      rw [validateOembedParams_errors, hseg]
      simp [List.append_assoc]
    rw [handler_first_error env p backend ts rid _ _ herr]
    rfl
  · intro env p backend ts rid f hu hf hne hcont
    have hjs : jsOrS p.format DEFAULT_FORMAT = f := by
      simp [jsOrS, jsTruthyS, hf, hne]
    have hseg1 : urlErrorSegment p = [] := by
      unfold urlErrorSegment
      simp [hu]
    have hseg2 : formatErrorSegment p =
        [createValidationError "format" (ERROR_MESSAGES "INVALID_FORMAT") "INVALID_FORMAT"] := by
      unfold formatErrorSegment
      rw [hjs, hcont]
      rfl
    have herr : (validateOembedParams p).errors =
        createValidationError "format" (ERROR_MESSAGES "INVALID_FORMAT") "INVALID_FORMAT" ::
          (maxwidthErrorSegment p ++ maxheightErrorSegment p) := by
      rw [validateOembedParams_errors, hseg1, hseg2]
      simp [List.append_assoc]
    rw [handler_first_error env p backend ts rid _ _ herr, hjs]
    rfl

/-- Claim C1 counterexample: for the request `url=x&format=` the format
value (the empty string) lies outside json/xml and the url is present, yet
the response is not 501/INVALID_FORMAT: parameter validation accepts the
defaulted format and the request instead fails URL validation with
400/MALFORMED_URL. -/
theorem c1_counterexample :
    (VALID_FORMATS.contains "" = false)
    ∧ (validateOembedParams
        { url := some "x", format := some "", maxwidth := none, maxheight := none }).errors = []
    ∧ handler envFix { url := some "x", format := some "", maxwidth := none, maxheight := none }
        (Except.ok emptyMetadata) "ts" "rid" =
      formatErrorResponse 400 (ERROR_MESSAGES "MALFORMED_URL") "json" (some "MALFORMED_URL")
        (some "Invalid URL format") "ts" "rid"
    ∧ (handler envFix { url := some "x", format := some "", maxwidth := none, maxheight := none }
        (Except.ok emptyMetadata) "ts" "rid").statusCode = 400 := by
  refine ⟨rfl, rfl, rfl, rfl⟩

/-- Claim C1 witness: the amended theorem applied to a concrete request
with a missing url (format xml requested) and to a concrete request with
url present and format yaml. -/
theorem c1_witness :
    handler envFix { url := none, format := some "xml", maxwidth := none, maxheight := none }
        (Except.ok emptyMetadata) "ts" "rid" =
      formatErrorResponse 400 (ERROR_MESSAGES "MISSING_URL") "xml" (some "MISSING_URL")
        none "ts" "rid"
    ∧ handler envFix
        { url := some "https://mybusiness.com/a", format := some "yaml",
          maxwidth := none, maxheight := none }
        (Except.ok emptyMetadata) "ts" "rid" =
      formatErrorResponse 501 (ERROR_MESSAGES "INVALID_FORMAT") "yaml" (some "INVALID_FORMAT")
        none "ts" "rid" :=
  ⟨c1_claim.2.1 envFix _ (Except.ok emptyMetadata) "ts" "rid" rfl,
   c1_claim.2.2 envFix _ (Except.ok emptyMetadata) "ts" "rid" "yaml" rfl rfl rfl rfl⟩

/-- Value of the maxwidth error segment for a present parameter. -/
theorem maxwidthErrorSegment_eq (p : QueryParams) (v : String) (hv : p.maxwidth = some v) :
    maxwidthErrorSegment p =
      if dimensionOk v then []
      else [createValidationError "maxwidth" (ERROR_MESSAGES "INVALID_MAXWIDTH")
        "INVALID_MAXWIDTH"] := by
  unfold maxwidthErrorSegment
  rw [hv]
  rcases hd : validateDimension v "maxwidth" "INVALID_MAXWIDTH" with _ | x
  · simp [hd, (validateDimension_none_iff v "maxwidth" "INVALID_MAXWIDTH").mp hd]
  · have hx := validateDimension_eq v "maxwidth" "INVALID_MAXWIDTH" x hd
    have hdo : dimensionOk v = false := by
      cases hdo : dimensionOk v
      · rfl
      · rw [← validateDimension_none_iff v "maxwidth" "INVALID_MAXWIDTH"] at hdo
        rw [hdo] at hd
        exact absurd hd (by simp)
    simp [hd, hdo, hx]

/-- Value of the maxheight error segment for a present parameter. -/
theorem maxheightErrorSegment_eq (p : QueryParams) (v : String) (hv : p.maxheight = some v) :
    maxheightErrorSegment p =
      if dimensionOk v then []
      else [createValidationError "maxheight" (ERROR_MESSAGES "INVALID_MAXHEIGHT")
        "INVALID_MAXHEIGHT"] := by
  unfold maxheightErrorSegment
  rw [hv]
  rcases hd : validateDimension v "maxheight" "INVALID_MAXHEIGHT" with _ | x
  · simp [hd, (validateDimension_none_iff v "maxheight" "INVALID_MAXHEIGHT").mp hd]
  · have hx := validateDimension_eq v "maxheight" "INVALID_MAXHEIGHT" x hd
    have hdo : dimensionOk v = false := by
      cases hdo : dimensionOk v
      · rfl
      · rw [← validateDimension_none_iff v "maxheight" "INVALID_MAXHEIGHT"] at hdo
        rw [hdo] at hd
        exact absurd hd (by simp)
    simp [hd, hdo, hx]

/-! # Claim C2 -/

/-- Claim C2 (amended): for every request in which maxwidth (respectively
maxheight) is present, `validateOembedParams` reports the single fixed
INVALID_MAXWIDTH (respectively INVALID_MAXHEIGHT) error exactly when the
JavaScript integer-prefix parse (`parseInt` base 10) of the value fails or
yields a number below 1 or above 2048; whenever such an error is the first
one collected, the handler response has status 400 with that code. (The
original claim also counted numeric but non-integer values such as "100.5"
as failing; `parseInt` truncates them to their integer prefix, which is
accepted when in range.) -/
theorem c2_claim :
    (∀ (p : QueryParams) (v : String), p.maxwidth = some v →
      (createValidationError "maxwidth" (ERROR_MESSAGES "INVALID_MAXWIDTH") "INVALID_MAXWIDTH"
          ∈ (validateOembedParams p).errors
        ↔ dimensionOk v = false))
    ∧ (∀ (p : QueryParams) (v : String), p.maxheight = some v →
      (createValidationError "maxheight" (ERROR_MESSAGES "INVALID_MAXHEIGHT") "INVALID_MAXHEIGHT"
          ∈ (validateOembedParams p).errors
        ↔ dimensionOk v = false))
    ∧ (∀ (env : Env) (p : QueryParams) (backend : Except String Metadata) (ts rid v : String),
        jsTruthyS p.url = true →
        VALID_FORMATS.contains (jsOrS p.format DEFAULT_FORMAT) = true →
        p.maxwidth = some v → dimensionOk v = false →
        handler env p backend ts rid =
          formatErrorResponse 400 (ERROR_MESSAGES "INVALID_MAXWIDTH")
            (jsOrS p.format DEFAULT_FORMAT) (some "INVALID_MAXWIDTH") none ts rid)
    ∧ (∀ (env : Env) (p : QueryParams) (backend : Except String Metadata) (ts rid v : String),
        jsTruthyS p.url = true →
        VALID_FORMATS.contains (jsOrS p.format DEFAULT_FORMAT) = true →
        maxwidthErrorSegment p = [] →
        p.maxheight = some v → dimensionOk v = false →
        handler env p backend ts rid =
          formatErrorResponse 400 (ERROR_MESSAGES "INVALID_MAXHEIGHT")
            (jsOrS p.format DEFAULT_FORMAT) (some "INVALID_MAXHEIGHT") none ts rid) := by
  refine ⟨?_, ?_, ?_, ?_⟩
  · intro p v hv
    have hu := not_mem_urlErrorSegment p
      (createValidationError "maxwidth" (ERROR_MESSAGES "INVALID_MAXWIDTH") "INVALID_MAXWIDTH")
      (by decide)
    have hf := not_mem_formatErrorSegment p
      (createValidationError "maxwidth" (ERROR_MESSAGES "INVALID_MAXWIDTH") "INVALID_MAXWIDTH")
      (by decide)
    have hh := not_mem_maxheightErrorSegment p
      (createValidationError "maxwidth" (ERROR_MESSAGES "INVALID_MAXWIDTH") "INVALID_MAXWIDTH")
      (by decide)
    rw [validateOembedParams_errors, maxwidthErrorSegment_eq p v hv]
    cases hdo : dimensionOk v <;> simp_all [List.mem_append]
  · intro p v hv
    have hu := not_mem_urlErrorSegment p
      (createValidationError "maxheight" (ERROR_MESSAGES "INVALID_MAXHEIGHT") "INVALID_MAXHEIGHT")
      (by decide)
    have hf := not_mem_formatErrorSegment p
      (createValidationError "maxheight" (ERROR_MESSAGES "INVALID_MAXHEIGHT") "INVALID_MAXHEIGHT")
      (by decide)
    have hw := not_mem_maxwidthErrorSegment p
      (createValidationError "maxheight" (ERROR_MESSAGES "INVALID_MAXHEIGHT") "INVALID_MAXHEIGHT")
      (by decide)
    rw [validateOembedParams_errors, maxheightErrorSegment_eq p v hv]
    cases hdo : dimensionOk v <;> simp_all [List.mem_append]
  · intro env p backend ts rid v hu hfmt hv hd
    have hseg1 : urlErrorSegment p = [] := by
      unfold urlErrorSegment
      simp [hu]
    have hseg2 : formatErrorSegment p = [] := by
      unfold formatErrorSegment
      rw [hfmt]
      rfl
    have hseg3 := maxwidthErrorSegment_eq p v hv
    rw [hd] at hseg3
    have herr : (validateOembedParams p).errors =
        createValidationError "maxwidth" (ERROR_MESSAGES "INVALID_MAXWIDTH") "INVALID_MAXWIDTH"
          :: maxheightErrorSegment p := by
      rw [validateOembedParams_errors, hseg1, hseg2, hseg3]
      simp
    rw [handler_first_error env p backend ts rid _ _ herr]
    rfl
  · intro env p backend ts rid v hu hfmt hws hv hd
    have hseg1 : urlErrorSegment p = [] := by
      unfold urlErrorSegment
      simp [hu]
    have hseg2 : formatErrorSegment p = [] := by
      unfold formatErrorSegment
      rw [hfmt]
      rfl
    have hseg4 := maxheightErrorSegment_eq p v hv
    rw [hd] at hseg4
    have herr : (validateOembedParams p).errors =
        [createValidationError "maxheight" (ERROR_MESSAGES "INVALID_MAXHEIGHT")
          "INVALID_MAXHEIGHT"] := by
      rw [validateOembedParams_errors, hseg1, hseg2, hws, hseg4]
      simp
    rw [handler_first_error env p backend ts rid _ _ herr]
    rfl

/-- Claim C2 counterexample: "100.5" is numeric but not an integer, so the
claim demands an INVALID_MAXWIDTH error; `parseInt` truncates it to 100,
which is in range, and validation accepts the request with no errors. -/
theorem c2_counterexample :
    specIntegerString "100.5" = false
    ∧ parseIntJs "100.5" = some 100
    ∧ (validateOembedParams
        { url := some "https://mybusiness.com/a", format := none,
          maxwidth := some "100.5", maxheight := none }).errors = []
    ∧ (validateOembedParams
        { url := some "https://mybusiness.com/a", format := none,
          maxwidth := some "100.5", maxheight := none }).isValid = true := by
  refine ⟨rfl, rfl, rfl, rfl⟩

/-- Claim C2 witness: the amended theorem applied to concrete requests with
maxwidth 5000 (out of range) and maxheight "abc" (no integer prefix). -/
theorem c2_witness :
    handler envFix
        { url := some "https://mybusiness.com/a", format := none,
          maxwidth := some "5000", maxheight := none }
        (Except.ok emptyMetadata) "ts" "rid" =
      formatErrorResponse 400 (ERROR_MESSAGES "INVALID_MAXWIDTH") "json"
        (some "INVALID_MAXWIDTH") none "ts" "rid"
    ∧ handler envFix
        { url := some "https://mybusiness.com/a", format := none,
          maxwidth := none, maxheight := some "abc" }
        (Except.ok emptyMetadata) "ts" "rid" =
      formatErrorResponse 400 (ERROR_MESSAGES "INVALID_MAXHEIGHT") "json"
        (some "INVALID_MAXHEIGHT") none "ts" "rid" :=
  ⟨c2_claim.2.2.1 envFix _ (Except.ok emptyMetadata) "ts" "rid" "5000" rfl rfl rfl (by decide),
   c2_claim.2.2.2 envFix _ (Except.ok emptyMetadata) "ts" "rid" "abc" rfl rfl rfl rfl
     (by decide)⟩

/-- A truthy optional string is a `some`. -/
theorem jsTruthyS_isSome (o : Option String) (h : jsTruthyS o = true) : o.isSome := by
  cases o
  · simp [jsTruthyS] at h
  · rfl

/-- Fact: `addOptionalFields` never touches the thumbnail fields. -/
theorem addOptionalFields_thumbnails (r : OembedResponse) (m : Metadata) :
    (addOptionalFields r m).thumbnail_url = r.thumbnail_url
    ∧ (addOptionalFields r m).thumbnail_width = r.thumbnail_width
    ∧ (addOptionalFields r m).thumbnail_height = r.thumbnail_height := by
  simp only [addOptionalFields]
  cases m.cache_age <;> split_ifs <;> exact ⟨rfl, rfl, rfl⟩

/-- Fact: `addOptionalFields` sets the cache age from the metadata override. -/
theorem addOptionalFields_cache_age (r : OembedResponse) (m : Metadata) :
    (addOptionalFields r m).cache_age =
      (match m.cache_age with
       | JsOptInt.undef => r.cache_age
       | JsOptInt.null => none
       | JsOptInt.val v => some v) := by
  simp only [addOptionalFields]
  cases m.cache_age <;> split_ifs <;> rfl

/-- Fact: `addThumbnailFields` never touches the cache age. -/
theorem addThumbnailFields_cache_age (r : OembedResponse) (m : Metadata) :
    (addThumbnailFields r m).cache_age = r.cache_age := by
  simp only [addThumbnailFields]
  split_ifs <;> rfl

/-- Cache age of the common response phases: the metadata value when it is
not undefined (null copied through), the fixed 3600 default otherwise. -/
theorem commonResponse_cache_age (env : Env) (m : Metadata) :
    (commonResponse env m).cache_age =
      (match m.cache_age with
       | JsOptInt.undef => some DEFAULT_CACHE_AGE
       | JsOptInt.null => none
       | JsOptInt.val v => some v) := by
  unfold commonResponse
  rw [addThumbnailFields_cache_age, addOptionalFields_cache_age]
  cases m.cache_age <;> rfl

/-- The thumbnail all-or-none shape of `addThumbnailFields`, starting from
a response carrying no thumbnail fields. -/
theorem addThumbnailFields_all_or_none (r : OembedResponse) (m : Metadata)
    (hw : r.thumbnail_width = none) (hh : r.thumbnail_height = none) :
    ((addThumbnailFields r m).thumbnail_width.isSome
      ∨ (addThumbnailFields r m).thumbnail_height.isSome) →
    (addThumbnailFields r m).thumbnail_url.isSome := by
  simp only [addThumbnailFields]
  generalize (if jsTruthyS m.thumbnail_url = true then m.thumbnail_url else m.thumbnail) = tUrl
  by_cases ht : jsTruthyS tUrl = true
  · rw [if_pos ht]
    intro _
    split_ifs <;> exact jsTruthyS_isSome _ ht
  · rw [if_neg ht]
    intro h
    rw [hw, hh] at h
    simp at h

/-- The type dispatch of `createTypeSpecificResponse` never changes the
cache age or the thumbnail fields established by the common phases. -/
theorem createTypeSpecificResponse_fields (env : Env) (m : Metadata) (maxw maxh : Option Int)
    (r : OembedResponse) (h : createTypeSpecificResponse env m maxw maxh = Except.ok r) :
    r.cache_age = (commonResponse env m).cache_age
    ∧ r.thumbnail_url = (commonResponse env m).thumbnail_url
    ∧ r.thumbnail_width = (commonResponse env m).thumbnail_width
    ∧ r.thumbnail_height = (commonResponse env m).thumbnail_height := by
  simp only [createTypeSpecificResponse] at h
  split at h
  · simp only [createPhotoResponse] at h
    split at h
    · exact absurd h (by simp)
    · simp only [Except.ok.injEq] at h
      subst h
      exact ⟨rfl, rfl, rfl, rfl⟩
  · split at h
    · simp only [createVideoResponse] at h
      split at h
      · exact absurd h (by simp)
      · simp only [Except.ok.injEq] at h
        subst h
        exact ⟨rfl, rfl, rfl, rfl⟩
    · split at h
      · simp only [Except.ok.injEq] at h
        subst h
        exact ⟨rfl, rfl, rfl, rfl⟩
      · split at h
        · simp only [Except.ok.injEq] at h
          subst h
          exact ⟨rfl, rfl, rfl, rfl⟩
        · simp only [Except.ok.injEq] at h
          subst h
          exact ⟨rfl, rfl, rfl, rfl⟩

/-! # Claim C3 -/

/-- Claim C3 (amended): the Response Builder sets the response cache_age to
the metadata's cache_age whenever that field is not undefined (an explicit
null is copied through), and otherwise to the fixed default of 3600
seconds for every content type. (The original claim's type-specific
defaults of 7200/3600/1800/3600 seconds come from the constants table
`DEFAULT_CACHE_AGES`, which the builder never reads.) -/
theorem c3_claim :
    ∀ (env : Env) (m : Metadata) (maxw maxh : Option Int) (r : OembedResponse),
      createTypeSpecificResponse env m maxw maxh = Except.ok r →
      r.cache_age =
        (match m.cache_age with
         | JsOptInt.undef => some DEFAULT_CACHE_AGE
         | JsOptInt.null => none
         | JsOptInt.val v => some v) := by
  intro env m maxw maxh r h
  rw [(createTypeSpecificResponse_fields env m maxw maxh r h).1, commonResponse_cache_age]

/-- Claim C3 counterexample: a photo response built from metadata without a
cache age gets cache_age 3600, not the 7200 seconds the claim requires for
the photo type (7200 appears only in the unused `DEFAULT_CACHE_AGES`
table). -/
theorem c3_counterexample :
    (createTypeSpecificResponse envFix mdPhotoFix none none).map (fun r => r.cache_age) =
      Except.ok (some DEFAULT_CACHE_AGE)
    ∧ DEFAULT_CACHE_AGES "photo" = 7200
    ∧ DEFAULT_CACHE_AGE = 3600
    ∧ (some DEFAULT_CACHE_AGE : Option Int) ≠ some (DEFAULT_CACHE_AGES "photo") := by
  refine ⟨rfl, rfl, rfl, by decide⟩

/-- Claim C3 witness: the amended theorem applied to the concrete video
fixture, whose metadata carries no cache age. -/
theorem c3_witness :
    createTypeSpecificResponse envFix mdVideoFix (some 800) (some 600) = Except.ok videoRespFix
    ∧ videoRespFix.cache_age = some DEFAULT_CACHE_AGE :=
  ⟨rfl, c3_claim envFix mdVideoFix (some 800) (some 600) videoRespFix rfl⟩

/-! # Claim C5 -/

/-- Claim C5: for every metadata input, a successfully built oEmbed
response never carries thumbnail_width or thumbnail_height without also
carrying thumbnail_url (taken from thumbnail_url or the thumbnail alias):
thumbnail fields are all-or-none. -/
theorem c5_claim :
    ∀ (env : Env) (m : Metadata) (maxw maxh : Option Int) (r : OembedResponse),
      createTypeSpecificResponse env m maxw maxh = Except.ok r →
      (r.thumbnail_width.isSome ∨ r.thumbnail_height.isSome) →
      r.thumbnail_url.isSome := by
  intro env m maxw maxh r h hsome
  have hf := createTypeSpecificResponse_fields env m maxw maxh r h
  rw [hf.2.2.1, hf.2.2.2] at hsome
  rw [hf.2.1]
  exact addThumbnailFields_all_or_none (addOptionalFields (buildBaseResponse env m) m) m
    (by rw [(addOptionalFields_thumbnails _ _).2.1]; rfl)
    (by rw [(addOptionalFields_thumbnails _ _).2.2]; rfl)
    hsome

/-- Claim C5 witness: the theorem applied to the concrete video fixture,
whose response carries thumbnail dimensions and hence a thumbnail URL. -/
theorem c5_witness :
    createTypeSpecificResponse envFix mdVideoFix (some 800) (some 600) = Except.ok videoRespFix
    ∧ videoRespFix.thumbnail_width.isSome
    ∧ videoRespFix.thumbnail_url.isSome :=
  ⟨rfl, by decide,
   c5_claim envFix mdVideoFix (some 800) (some 600) videoRespFix rfl (Or.inl (by decide))⟩

/-- A string of length zero is the empty string. -/
theorem string_length_zero (s : String) (h : s.length = 0) : s = "" := by
  cases s with
  | mk data =>
    cases data with
    | nil => rfl
    | cons a l => simp [String.length] at h

/-- Fact: `validateAndSanitizeUrl` accepts exactly the non-empty strings within
the length bound that parse with an http or https scheme. -/
theorem validateAndSanitizeUrl_isValid (u : String) :
    (validateAndSanitizeUrl (some u)).isValid = true ↔
      (u ≠ "" ∧ u.length ≤ MAX_URL_LENGTH
        ∧ ∃ o, parseUrlJs u = some o ∧ ALLOWED_PROTOCOLS.contains o.protocol = true) := by
  show (if (u.length == 0) = true then urlValidationFail "URL must be a non-empty string"
    else if u.length > MAX_URL_LENGTH then urlValidationFail "URL exceeds maximum length"
    else match parseUrlJs u with
      | none => urlValidationFail "Invalid URL format"
      | some urlObj =>
        if (!ALLOWED_PROTOCOLS.contains urlObj.protocol) = true then
          urlValidationFail "Only HTTP and HTTPS protocols are allowed"
        else
          { isValid := true, error := none,
            sanitizedUrl := some (urlObj.protocol ++ "//" ++ urlObj.host ++ urlObj.pathname
              ++ urlObj.search ++ urlObj.hash),
            protocol := some urlObj.protocol, hostname := some urlObj.hostname,
            pathname := some urlObj.pathname }).isValid = true ↔ _
  split_ifs with h0 hlen
  · simp only [urlValidationFail]
    simp at h0
    simp [string_length_zero u h0]
  · simp only [urlValidationFail]
    simp at h0
    constructor
    · intro hcon
      exact absurd hcon (by simp)
    · rintro ⟨-, hle, -⟩
      omega
  · rcases hp : parseUrlJs u with _ | o
    · simp [urlValidationFail, hp]
    · simp only [urlValidationFail]
      split_ifs with hprot
      · constructor
        · intro hcon
          exact absurd hcon (by simp)
        · rintro ⟨-, -, o', hp', hc'⟩
          cases hp'
          simp_all
      · constructor
        · intro _
          refine ⟨?_, ?_, o, rfl, ?_⟩
          · intro he
            subst he
            simp at h0
          · omega
          · simp_all
        · intro _
          rfl

/-! # Claim C4 -/

/-- Claim C4: for every URL string, `validateAndAuthorizeUrl` rejects
empty, overlong (over 2048 characters), unparseable or non-http(s) URLs
with MALFORMED_URL; with a well-formed URL but no configured provider
domain it fails with MISSING_PROVIDER_DOMAIN; otherwise it succeeds
exactly when the parsed hostname equals or ends with the provider domain,
and a mismatch yields UNAUTHORIZED_DOMAIN (mapped to HTTP 404) with a
details string naming both the hostname and the provider domain. -/
theorem c4_claim :
    ∀ (u : String) (env : Env),
      ((u = "" ∨ u.length > MAX_URL_LENGTH ∨ parseUrlJs u = none
          ∨ (∃ o, parseUrlJs u = some o ∧ ALLOWED_PROTOCOLS.contains o.protocol = false)) →
        (validateAndAuthorizeUrl env (some u)).isValid = false
        ∧ (validateAndAuthorizeUrl env (some u)).code = some "MALFORMED_URL")
      ∧ ((validateAndSanitizeUrl (some u)).isValid = true →
        jsTruthyS env.providerDomain = false →
        (validateAndAuthorizeUrl env (some u)).isValid = false
        ∧ (validateAndAuthorizeUrl env (some u)).code = some "MISSING_PROVIDER_DOMAIN")
      ∧ ((validateAndSanitizeUrl (some u)).isValid = true →
        jsTruthyS env.providerDomain = true →
        ((validateAndAuthorizeUrl env (some u)).isValid = true
          ↔ strEndsWith ((validateAndSanitizeUrl (some u)).hostname.getD "")
              (env.providerDomain.getD "") = true)
        ∧ (strEndsWith ((validateAndSanitizeUrl (some u)).hostname.getD "")
              (env.providerDomain.getD "") = false →
            (validateAndAuthorizeUrl env (some u)).code = some "UNAUTHORIZED_DOMAIN"
            ∧ (validateAndAuthorizeUrl env (some u)).details =
                some ("URL hostname " ++ ((validateAndSanitizeUrl (some u)).hostname.getD "")
                  ++ " does not match provider domain " ++ (env.providerDomain.getD ""))
            ∧ ERROR_STATUS_MAP "UNAUTHORIZED_DOMAIN" = some 404)) := by
  intro u env
  refine ⟨?_, ?_, ?_⟩
  · intro h
    have hv : (validateAndSanitizeUrl (some u)).isValid = false := by
      cases hcase : (validateAndSanitizeUrl (some u)).isValid
      · rfl
      · rw [validateAndSanitizeUrl_isValid] at hcase
        obtain ⟨hne, hle, o, hp, hc⟩ := hcase
        rcases h with h | h | h | ⟨o', hp', hc'⟩
        · exact absurd h hne
        · omega
        · rw [h] at hp
          exact absurd hp (by simp)
        · rw [hp] at hp'
          cases hp'
          simp_all
    simp only [validateAndAuthorizeUrl]
    rw [hv]
    exact ⟨rfl, rfl⟩
  · intro hv hd
    simp only [validateAndAuthorizeUrl]
    rw [hv, hd]
    exact ⟨rfl, rfl⟩
  · intro hv hd
    simp only [validateAndAuthorizeUrl]
    rw [hv, hd]
    rw [if_neg (by simp), if_neg (by simp)]
    by_cases he : strEndsWith ((validateAndSanitizeUrl (some u)).hostname.getD "")
        (env.providerDomain.getD "") = true
    · rw [if_neg (by simp [he])]
      constructor
      · simp [he]
      · intro hcon
        rw [he] at hcon
        cases hcon
    · have he' : strEndsWith ((validateAndSanitizeUrl (some u)).hostname.getD "")
          (env.providerDomain.getD "") = false := by
        simpa using he
      rw [if_pos (by simp [he'])]
      constructor
      · simp [he']
      · intro _
        exact ⟨rfl, rfl, rfl⟩

/-- Claim C4 witness: the theorem applied to a concrete rejected scheme, a
concrete unauthorized domain (status mapped to 404), a missing provider
domain configuration, and a concrete accepted subdomain URL. -/
theorem c4_witness :
    (validateAndAuthorizeUrl envFix (some "ftp://a.com/x")).code = some "MALFORMED_URL"
    ∧ (validateAndAuthorizeUrl envNoDomainFix (some "https://mybusiness.com/a")).code =
      some "MISSING_PROVIDER_DOMAIN"
    ∧ (validateAndAuthorizeUrl envFix (some "https://other-domain.com/video")).code =
      some "UNAUTHORIZED_DOMAIN"
    ∧ (validateAndAuthorizeUrl envFix (some "https://other-domain.com/video")).details =
      some "URL hostname other-domain.com does not match provider domain mybusiness.com"
    ∧ ERROR_STATUS_MAP "UNAUTHORIZED_DOMAIN" = some 404
    ∧ (validateAndAuthorizeUrl envFix (some "https://sub.mybusiness.com/x")).isValid = true :=
  ⟨((c4_claim "ftp://a.com/x" envFix).1
      (Or.inr (Or.inr (Or.inr ⟨ftpUrlObjFix, by decide, by decide⟩)))).2,
   ((c4_claim "https://mybusiness.com/a" envNoDomainFix).2.1 (by decide) (by decide)).2,
   (((c4_claim "https://other-domain.com/video" envFix).2.2 (by decide) (by decide)).2
     (by decide)).1,
   (((c4_claim "https://other-domain.com/video" envFix).2.2 (by decide) (by decide)).2
     (by decide)).2.1,
   (((c4_claim "https://other-domain.com/video" envFix).2.2 (by decide) (by decide)).2
     (by decide)).2.2,
   (((c4_claim "https://sub.mybusiness.com/x" envFix).2.2 (by decide) (by decide)).1).mpr
     (by decide)⟩

/-! # Claim C6 -/

/-- Claim C6 (amended): the dimension-constraint function, with absence
meaning JavaScript falsiness (null, undefined or 0): whenever both original
and limit are truthy, the result is their minimum, hence at most the
limit; whenever the limit is falsy, the result is the original when the
original is truthy; whenever the original is falsy, the result is the
limit when the limit is truthy and null otherwise. (The original claim
fails at original = 0, which the source's falsy check treats as absent.) -/
theorem c6_claim :
    ∀ (original limit : Option Int),
      (jsTruthyI original = true → jsTruthyI limit = true →
        calculateConstrainedDimension original limit =
          some (min (original.getD 0) (limit.getD 0))
        ∧ (calculateConstrainedDimension original limit).getD 0 ≤ limit.getD 0)
      ∧ (jsTruthyI limit = false → jsTruthyI original = true →
        calculateConstrainedDimension original limit = original)
      ∧ (jsTruthyI original = false →
        calculateConstrainedDimension original limit =
          (if jsTruthyI limit then limit else none)) := by
  intro original limit
  refine ⟨?_, ?_, ?_⟩
  · intro ho hl
    unfold calculateConstrainedDimension
    rw [ho, hl]
    simp only [Bool.not_true]
    rw [if_neg (by simp), if_neg (by simp)]
    exact ⟨rfl, min_le_right _ _⟩
  · intro hl ho
    unfold calculateConstrainedDimension
    rw [ho, hl]
    simp
  · intro ho
    unfold calculateConstrainedDimension
    rw [ho]
    simp

/-- Claim C6 counterexample: with original = 0 and limit = 5 both provided,
the function returns the limit 5, not min(0, 5) = 0: the source's falsy
check treats a zero original dimension as absent. -/
theorem c6_counterexample :
    calculateConstrainedDimension (some 0) (some 5) = some 5
    ∧ min (0 : Int) 5 = 0
    ∧ ¬(calculateConstrainedDimension (some 0) (some 5) = some (min (0 : Int) 5)) := by
  refine ⟨rfl, rfl, by decide⟩

/-- Claim C6 witness: the amended theorem applied at 300 with limit 200
(clamped to the minimum), at 300 with an absent limit (unchanged), and at
an absent original with limit 200 (the limit is returned). -/
theorem c6_witness :
    calculateConstrainedDimension (some 300) (some 200) = some (min (300 : Int) 200)
    ∧ (calculateConstrainedDimension (some 300) (some 200)).getD 0 ≤ (200 : Int)
    ∧ calculateConstrainedDimension (some 300) none = some 300
    ∧ calculateConstrainedDimension none (some 200) = (if jsTruthyI (some 200) then some 200
        else none) :=
  ⟨((c6_claim (some 300) (some 200)).1 rfl rfl).1,
   ((c6_claim (some 300) (some 200)).1 rfl rfl).2,
   (c6_claim (some 300) none).2.1 rfl rfl,
   (c6_claim none (some 200)).2.2 rfl⟩

/-! # Claim C7 -/

/-- Text beginning with itself: appending anything keeps the original text
as a leading segment. -/
theorem strStartsWith_append (a b : String) : strStartsWith (a ++ b) a = true := by
  unfold strStartsWith
  cases a with
  | mk la =>
    cases b with
    | mk lb =>
      show ((la ++ lb).take la.length == la) = true
      simp [List.take_left]

/-- Claim C7 (amended): for every response object none of whose fields is
null, the field set serialized into the JSON body equals (as an ordered
list) the set of child elements of the oembed root in the XML body; each
XML element value is escaped by `escapeXml` (ampersand, angle brackets and
double quote to named entities, apostrophe to `&apos;`), and the XML body
begins with the fixed declaration. (The original claim fails for a
null-valued field - possible only for cache_age copied from backend
metadata - which `JSON.stringify` serializes as null while the XML
serializer's filter omits it.) -/
theorem c7_claim :
    ∀ data : List (String × JsVal),
      (∀ kv ∈ data, kv.2 ≠ JsVal.null) →
      xmlSerializedFields data = jsonSerializedFields data
      ∧ xmlElements data = data.map (fun kv =>
          "  <" ++ kv.1 ++ ">" ++ escapeXml (jsValToString kv.2) ++ "</" ++ kv.1 ++ ">")
      ∧ strStartsWith (generateXmlBody data) XML_DECLARATION = true
      ∧ escapeXml "&<>\"\x27" = "&amp;&lt;&gt;&quot;&apos;" := by
  intro data hnull
  have hfilter : data.filter (fun kv => !(kv.2 == JsVal.null)) = data := by
    rw [List.filter_eq_self]
    intro kv hkv
    simpa using hnull kv hkv
  refine ⟨?_, ?_, ?_, rfl⟩
  · unfold xmlSerializedFields jsonSerializedFields
    rw [hfilter]
  · unfold xmlElements
    rw [hfilter]
  · unfold generateXmlBody
    rw [show XML_DECLARATION ++ "\n<oembed>\n"
        ++ String.intercalate "\n" (xmlElements data) ++ "\n</oembed>" =
      XML_DECLARATION ++ ("\n<oembed>\n"
        ++ (String.intercalate "\n" (xmlElements data) ++ "\n</oembed>")) from by
        simp [String.append_assoc]]
    exact strStartsWith_append _ _

/-- Claim C7 counterexample: a link response whose backend metadata carried
an explicit null cache age. The JSON body serializes the cache_age field
(as null) but the XML body has no cache_age element, so the two field sets
differ. -/
theorem c7_counterexample :
    jsonSerializedFields (responseEntries linkNullRespFix) =
      ["version", "cache_age", "type", "provider_name", "provider_url"]
    ∧ xmlSerializedFields (responseEntries linkNullRespFix) =
      ["version", "type", "provider_name", "provider_url"]
    ∧ jsonStringify (responseEntries linkNullRespFix) =
      "\x7b\"version\":\"1.0\",\"cache_age\":null,\"type\":\"link\",\"provider_name\":\"My Business\",\"provider_url\":\"https://mybusiness.com\"\x7d"
    ∧ ¬(jsonSerializedFields (responseEntries linkNullRespFix) =
        xmlSerializedFields (responseEntries linkNullRespFix)) := by
  refine ⟨rfl, rfl, rfl, by decide⟩

/-- Claim C7 witness: the amended theorem applied to the entries of the
concrete video response, which has no null field. -/
theorem c7_witness :
    xmlSerializedFields (responseEntries videoRespFix) =
      jsonSerializedFields (responseEntries videoRespFix)
    ∧ strStartsWith (generateXmlBody (responseEntries videoRespFix)) XML_DECLARATION = true :=
  ⟨(c7_claim (responseEntries videoRespFix) (by decide)).1,
   (c7_claim (responseEntries videoRespFix) (by decide)).2.2.1⟩

/-- A string concatenation is empty only when its left part is empty. -/
theorem string_append_eq_empty_left (a b : String) (h : a ++ b = "") : a = "" := by
  cases a with
  | mk la =>
    cases b with
    | mk lb =>
      have hd : la ++ lb = ([] : List Char) := congrArg String.data h
      have hla : la = [] := (List.append_eq_nil.mp hd).1
      rw [hla]

/-! # Claim C8 -/

/-- Claim C8: building a response for photo metadata without a url (or for
video metadata with neither html nor embedUrl) fails with the
required-field error, and whenever construction fails after validation and
authorization succeeded, the handler maps the failure to a 500 response
with code INTERNAL_ERROR. -/
theorem c8_claim :
    (∀ (env : Env) (m : Metadata) (maxw maxh : Option Int),
      m.type = some "photo" → jsTruthyS m.url = false →
      createTypeSpecificResponse env m maxw maxh =
        Except.error "Photo type requires url field")
    ∧ (∀ (env : Env) (m : Metadata) (maxw maxh : Option Int),
      m.type = some "video" → jsTruthyS m.embedUrl = false → jsTruthyS m.html = false →
      createTypeSpecificResponse env m maxw maxh =
        Except.error "Video type requires embedUrl or html field")
    ∧ (∀ (env : Env) (p : QueryParams) (m : Metadata) (ts rid e : String),
      (validateOembedParams p).isValid = true →
      (validateAndAuthorizeUrl env (sanitizeParams p).url).isValid = true →
      createTypeSpecificResponse env m (sanitizeParams p).maxwidth (sanitizeParams p).maxheight
        = Except.error e →
      handler env p (Except.ok m) ts rid =
        formatErrorResponse 500 "Internal server error" (jsOrS p.format "json")
          (some "INTERNAL_ERROR") none ts rid) := by
  refine ⟨?_, ?_, ?_⟩
  · intro env m maxw maxh ht hu
    have hct : jsOrS m.type "rich" = "photo" := by
      rw [jsOrS, ht]
      rfl
    simp only [createTypeSpecificResponse, hct]
    rw [if_pos (by decide)]
    simp only [createPhotoResponse, hu]
    rfl
  · intro env m maxw maxh ht he hh
    have hct : jsOrS m.type "rich" = "video" := by
      rw [jsOrS, ht]
      rfl
    simp only [createTypeSpecificResponse, hct]
    rw [if_neg (by decide), if_pos (by decide)]
    simp only [createVideoResponse, he, hh]
    rfl
  · intro env p m ts rid e hval hurl hbuild
    simp only [handler]
    rw [hval, hurl, hbuild]
    rfl

/-- Claim C8 witness: concrete failing constructions for a photo without a
url and a video without an embed, and the concrete 500 INTERNAL_ERROR
handler response for the photo case behind a valid request. -/
theorem c8_witness :
    createTypeSpecificResponse envFix mdPhotoNoUrlFix none none =
      Except.error "Photo type requires url field"
    ∧ createTypeSpecificResponse envFix mdVideoNoEmbedFix none none =
      Except.error "Video type requires embedUrl or html field"
    ∧ handler envFix
        { url := some "https://mybusiness.com/p", format := none,
          maxwidth := none, maxheight := none }
        (Except.ok mdPhotoNoUrlFix) "ts" "rid" =
      formatErrorResponse 500 "Internal server error" "json" (some "INTERNAL_ERROR")
        none "ts" "rid" :=
  ⟨c8_claim.1 envFix mdPhotoNoUrlFix none none rfl rfl,
   c8_claim.2.1 envFix mdVideoNoEmbedFix none none rfl rfl rfl,
   c8_claim.2.2 envFix _ mdPhotoNoUrlFix "ts" "rid" "Photo type requires url field"
     rfl (by decide) (c8_claim.1 envFix mdPhotoNoUrlFix none none rfl rfl)⟩

/-! # Claim C9 -/

/-- Claim C9: `generateVideoHtml` is total (the embedding is a total
function) and returns the fixed video-unavailable placeholder whenever the
embed URL (embedUrl or the url alias) is absent or fails URL sanitization,
and otherwise returns an iframe whose src is the sanitized URL and which
carries the fixed sandbox attribute; a non-empty URL fails sanitization
exactly when it is unparseable or its scheme is outside http/https. -/
theorem c9_claim :
    ∀ (m : Metadata) (width height : Option Int) (e : String),
      e = (if jsTruthyS m.embedUrl then m.embedUrl.getD ""
           else if jsTruthyS m.url then m.url.getD "" else "") →
      ((e = "" ∨ sanitizeUrl e = "") →
        generateVideoHtml m width height = VIDEO_NOT_AVAILABLE)
      ∧ (sanitizeUrl e ≠ "" →
        generateVideoHtml m width height =
          "<iframe src=\"" ++ sanitizeUrl e ++ "\" width=\""
            ++ toString (jsOrI width (jsOrI m.width 640)) ++ "\" height=\""
            ++ toString (jsOrI height (jsOrI m.height 360))
            ++ "\" frameborder=\"0\" allowfullscreen allow=\"" ++ IFRAME_ALLOW_ATTRIBUTES
            ++ "\" sandbox=\"" ++ IFRAME_SANDBOX_ATTRIBUTES ++ "\"></iframe>")
      ∧ (∀ u : String, u ≠ "" →
          ((sanitizeUrl u = "" ↔
            (parseUrlJs u = none
              ∨ ∃ o, parseUrlJs u = some o ∧ (["http:", "https:"].contains o.protocol) = false))
          ∧ (sanitizeUrl u ≠ "" →
            ∃ o, parseUrlJs u = some o ∧ (["http:", "https:"].contains o.protocol) = true
              ∧ sanitizeUrl u = urlToString o))) := by
  intro m width height e he
  refine ⟨?_, ?_, ?_⟩
  · rintro (h | h)
    · simp [generateVideoHtml, ← he, h]
    · simp [generateVideoHtml, ← he, h]
  · intro hs
    have h0 : ¬(e = "") := by
      intro hcon
      rw [hcon] at hs
      exact hs rfl
    simp [generateVideoHtml, ← he, h0, hs]
  · intro u hu
    unfold sanitizeUrl
    rw [if_neg (by simpa using hu)]
    rcases hp : parseUrlJs u with _ | o
    · constructor
      · simp
      · intro hcon
        exact absurd rfl hcon
    · simp only []
      have hne' : o.protocol = "http:" ∨ o.protocol = "https:" → urlToString o ≠ "" := by
        intro hpr hcon
        have h1 : o.protocol = "" := by
          unfold urlToString at hcon
          split_ifs at hcon
          · exact string_append_eq_empty_left _ _ (string_append_eq_empty_left _ _
              (string_append_eq_empty_left _ _ (string_append_eq_empty_left _ _
                (string_append_eq_empty_left _ _ hcon))))
          · exact string_append_eq_empty_left _ _ (string_append_eq_empty_left _ _
              (string_append_eq_empty_left _ _ hcon))
        rcases hpr with hpr | hpr <;> rw [hpr] at h1 <;> simp at h1
      by_cases hc : (["http:", "https:"].contains o.protocol) = true
      · have hif : (if (!(["http:", "https:"].contains o.protocol)) = true then ""
            else urlToString o) = urlToString o := by
          rw [hc]
          rfl
        rw [hif]
        have hne2 : urlToString o ≠ "" := hne' (by simpa using hc)
        constructor
        · constructor
          · intro hcon
            exact absurd hcon hne2
          · rintro (hcon | ⟨o', ho', hc'⟩)
            · exact absurd hcon (by simp)
            · cases ho'
              rw [hc] at hc'
              cases hc'
        · intro _
          exact ⟨o, rfl, hc, rfl⟩
      · have hc0 : (["http:", "https:"].contains o.protocol) = false := by
          simpa using hc
        have hif : (if (!(["http:", "https:"].contains o.protocol)) = true then ""
            else urlToString o) = "" := by
          rw [hc0]
          rfl
        rw [hif]
        constructor
        · exact Iff.intro (fun _ => Or.inr ⟨o, rfl, hc0⟩) (fun _ => rfl)
        · intro hcon
          exact absurd rfl hcon

/-- Claim C9 witness: the theorem applied at a javascript-scheme embed URL
(placeholder fallback) and at the concrete video fixture (iframe with the
sanitized URL and the fixed sandbox attribute). -/
theorem c9_witness :
    generateVideoHtml { emptyMetadata with embedUrl := some "javascript:alert(1)" }
        (some 800) (some 600) = VIDEO_NOT_AVAILABLE
    ∧ generateVideoHtml mdVideoFix (some 800) (some 600) =
      "<iframe src=\"" ++ sanitizeUrl "https://mybusiness.com/embed/123" ++ "\" width=\""
        ++ toString (800 : Int) ++ "\" height=\"" ++ toString (600 : Int)
        ++ "\" frameborder=\"0\" allowfullscreen allow=\"" ++ IFRAME_ALLOW_ATTRIBUTES
        ++ "\" sandbox=\"" ++ IFRAME_SANDBOX_ATTRIBUTES ++ "\"></iframe>" :=
  ⟨(c9_claim { emptyMetadata with embedUrl := some "javascript:alert(1)" }
      (some 800) (some 600) "javascript:alert(1)" rfl).1 (Or.inr (by decide)),
   (c9_claim mdVideoFix (some 800) (some 600) "https://mybusiness.com/embed/123" rfl).2.1
     (by decide)⟩

/-! # Claim C10 -/

/-- Claim C10: when `formatErrorResponse` is called without an explicit
error code, the error body's code is derived from the HTTP status (400 to
BAD_REQUEST, 401 to UNAUTHORIZED, 404 to NOT_FOUND, 501 to NOT_IMPLEMENTED,
500 to INTERNAL_SERVER_ERROR), and any status outside this set yields the
fallback code UNKNOWN_ERROR. -/
theorem c10_claim :
    getErrorCodeFromStatus 400 = "BAD_REQUEST"
    ∧ getErrorCodeFromStatus 401 = "UNAUTHORIZED"
    ∧ getErrorCodeFromStatus 404 = "NOT_FOUND"
    ∧ getErrorCodeFromStatus 501 = "NOT_IMPLEMENTED"
    ∧ getErrorCodeFromStatus 500 = "INTERNAL_SERVER_ERROR"
    ∧ (∀ s : Nat, s ≠ 400 → s ≠ 401 → s ≠ 404 → s ≠ 501 → s ≠ 500 →
        getErrorCodeFromStatus s = "UNKNOWN_ERROR")
    ∧ (∀ (statusCode : Nat) (message : String) (details : Option String) (ts rid : String),
        (mkErrorData statusCode message none details ts rid).code =
          getErrorCodeFromStatus statusCode
        ∧ (formatErrorResponse statusCode message "json" none details ts rid).body =
            errorDataJson (mkErrorData statusCode message none details ts rid)) := by
  refine ⟨rfl, rfl, rfl, rfl, rfl, ?_, ?_⟩
  · intro s h1 h2 h3 h4 h5
    simp [getErrorCodeFromStatus, h1, h2, h3, h4, h5]
  · intro statusCode message details ts rid
    exact ⟨rfl, rfl⟩

/-- Claim C10 witness: the fallback clause applied at the concrete status
418, together with the derived code of a concrete 400 error body. -/
theorem c10_witness :
    getErrorCodeFromStatus 418 = "UNKNOWN_ERROR"
    ∧ (mkErrorData 400 "Bad" none none "ts" "rid").code = getErrorCodeFromStatus 400 :=
  ⟨c10_claim.2.2.2.2.2.1 418 (by decide) (by decide) (by decide) (by decide) (by decide),
   (c10_claim.2.2.2.2.2.2 400 "Bad" none "ts" "rid").1⟩

end Oembed
